import Mathlib

/-!
Shallow embedding of the tron-arena authoritative game core
(`src/src/game.js`, `src/src/network.js`, and the older copy of the game
module in `src/unnamed/part_000`).

Modelling conventions:
* JS numbers are modelled as `ℚ` (all arithmetic in the claims is exact
  rational arithmetic; `Math.cos`, `Math.sin` and `Math.PI` are abstracted
  as parameters `cosF sinF : ℚ → ℚ` and `piv : ℚ`).
* `Date.now()` is an explicit `now : ℤ` argument (milliseconds).
* JS `x | 0` (truncation towards zero) is `jsTrunc`.
* The `Float32Array` trail buffers are total functions `ℕ → ℚ` updated
  pointwise; only the slots below `TRAIL_MAX` are ever read.
* The module-level spatial-grid state of `game.js` (`spatialBitfield`,
  `gridPointsX/Y/Player/TrailPos`, `gridPointCount`, `gridDirty`) is an
  explicit `GridEnv` value threaded through the functions that mutate it.
* Objects keyed by player id are association lists / lists in insertion
  order; the 1-based `playerIdx` of `game.js` is the 1-based position in
  that order.
-/

/-- `CANVAS_W` (game.js line 2). -/
def CANVAS_W : ℚ := 1400

/-- `CANVAS_H` (game.js line 3). -/
def CANVAS_H : ℚ := 900

/-- `BASE_SPEED` (game.js line 4). -/
def BASE_SPEED : ℚ := 2.5

/-- `SPEED_INCREMENT` (game.js line 5). -/
def SPEED_INCREMENT : ℚ := 0.5

/-- `SPEED_INTERVAL` (game.js line 6), in seconds. -/
def SPEED_INTERVAL : ℚ := 10

/-- `MAX_SPEED` (game.js line 7). -/
def MAX_SPEED : ℚ := 8

/-- `TURN_SPEED` (game.js line 8). -/
def TURN_SPEED : ℚ := 0.045

/-- `TRAIL_MAX` (game.js line 9). -/
def TRAIL_MAX : ℕ := 600

/-- `COLLISION_RADIUS` (game.js line 10). -/
def COLLISION_RADIUS : ℚ := 4

/-- `COLLISION_RADIUS_SQ` (game.js line 11). -/
def COLLISION_RADIUS_SQ : ℚ := COLLISION_RADIUS * COLLISION_RADIUS

/-- `COLLISION_SKIP_OWN` (game.js line 12). -/
def COLLISION_SKIP_OWN : ℕ := 20

/-- `MAX_LIVES` (game.js line 13). -/
def MAX_LIVES : ℕ := 6

/-- `GRID_CELL_SIZE` (game.js line 16). -/
def GRID_CELL_SIZE : ℚ := 16

/-- `GRID_COLS = Math.ceil(CANVAS_W / GRID_CELL_SIZE) = 88` (game.js line 17). -/
def GRID_COLS : ℤ := 88

/-- `GRID_ROWS = Math.ceil(CANVAS_H / GRID_CELL_SIZE) = 57` (game.js line 18). -/
def GRID_ROWS : ℤ := 57

/-- `MAX_GRID_ENTRIES = 8 * TRAIL_MAX` (game.js line 44). -/
def MAX_GRID_ENTRIES : ℕ := 8 * TRAIL_MAX

/-- `COLORS` (game.js line 33). -/
def COLORS : List String :=
  ["#ff8c00", "#00bfff", "#ff2e63", "#39ff14", "#e040fb", "#ffeb3b", "#00e5ff", "#ff6e40"]

/-- One entry of `spawnConfigs`: `{ x, y, angle }` (game.js lines 22-31). -/
structure SpawnConfig where
  x : ℚ
  y : ℚ
  angle : ℚ
  deriving DecidableEq

/-- `spawnConfigs` (game.js lines 22-31); `piv` stands for `Math.PI`. -/
def spawnConfigs (piv : ℚ) : List SpawnConfig :=
  [⟨250, 200, piv * 0.25⟩, ⟨1150, 200, piv * 0.75⟩,
   ⟨1150, 700, piv * 1.25⟩, ⟨250, 700, piv * 1.75⟩,
   ⟨700, 100, piv * 0.5⟩, ⟨700, 800, piv * 1.5⟩,
   ⟨100, 450, 0⟩, ⟨1300, 450, piv⟩]

/-- JS `q | 0`: truncation of a number towards zero. -/
def jsTrunc (q : ℚ) : ℤ := if 0 ≤ q then ⌊q⌋ else -⌊-q⌋

/-- JS `String.prototype.trim()`: strip leading and trailing whitespace
(modelled on the character list of the string). -/
def jsTrim (s : String) : String :=
  String.mk (((s.data.dropWhile Char.isWhitespace).reverse.dropWhile Char.isWhitespace).reverse)

/-- The per-competitor state created by `createPlayer` (game.js lines 125-144). -/
structure Player where
  id : String
  name : String
  x : ℚ
  y : ℚ
  angle : ℚ
  turning : ℚ
  trailX : ℕ → ℚ
  trailY : ℕ → ℚ
  trailLen : ℕ
  trailStart : ℕ
  trailSentCount : ℕ
  alive : Bool
  score : ℕ
  lives : ℕ
  color : String
  spawnIndex : ℕ

/-- `createPlayer(id, index, name)` (game.js lines 125-144).  The `name`
argument is `Option String`: `none` models a non-string JS value, for which
`typeof name === "string"` is false. -/
def createPlayer (id : String) (index : ℕ) (name : Option String) : Player where
  id := id
  name := match name with
    | some s => if 0 < (jsTrim s).length then jsTrim s else "Player"
    | none => "Player"
  x := CANVAS_W / 2
  y := CANVAS_H / 2
  angle := 0
  turning := 0
  trailX := fun _ => 0
  trailY := fun _ => 0
  trailLen := 0
  trailStart := 0
  trailSentCount := 0
  alive := true
  score := 0
  lives := MAX_LIVES
  color := COLORS.getD (index % COLORS.length) ""
  spawnIndex := index

/-- `getGameSpeed(roundStartTime)` (game.js lines 147-152).  `Date.now()` is
the explicit argument `now`; the JS falsy test `!roundStartTime` is true for
`null` (modelled `none`) and for the timestamp `0`. -/
def getGameSpeed (roundStartTime : Option ℤ) (now : ℤ) : ℚ :=
  match roundStartTime with
  | none => BASE_SPEED
  | some rst =>
    if rst = 0 then BASE_SPEED
    else
      let elapsed : ℚ := ((now : ℚ) - (rst : ℚ)) / 1000
      let boosts : ℤ := jsTrunc (elapsed / SPEED_INTERVAL)
      min (BASE_SPEED + (boosts : ℚ) * SPEED_INCREMENT) MAX_SPEED

/-- `trailPush(p, x, y)` (game.js lines 155-170), the circular-buffer part.
The grid side effect of the same function (the `gridInsertPoint` call below
capacity, `gridDirty = true` on wrap) is `trailPushEnv` below. -/
def trailPush (p : Player) (x y : ℚ) : Player :=
  if p.trailLen < TRAIL_MAX then
    let idx := (p.trailStart + p.trailLen) % TRAIL_MAX
    { p with
      trailX := fun j => if j = idx then x else p.trailX j
      trailY := fun j => if j = idx then y else p.trailY j
      trailLen := p.trailLen + 1 }
  else
    { p with
      trailX := fun j => if j = p.trailStart then x else p.trailX j
      trailY := fun j => if j = p.trailStart then y else p.trailY j
      trailStart := (p.trailStart + 1) % TRAIL_MAX
      trailSentCount := p.trailSentCount - 1 }

/-- `trailGetIndex(p, i)` (game.js lines 172-174). -/
def trailGetIndex (p : Player) (i : ℕ) : ℕ :=
  (p.trailStart + i) % TRAIL_MAX

/-- `movePlayer(p, speed)` (game.js lines 177-187): turn, advance, push the
new position onto the trail, then mark the player dead if the computed
position left the canvas.  `cosF`/`sinF` abstract `Math.cos`/`Math.sin`. -/
def movePlayer (cosF sinF : ℚ → ℚ) (p : Player) (speed : ℚ) : Player :=
  let angle := p.angle + p.turning * TURN_SPEED
  let x := p.x + cosF angle * speed
  let y := p.y + sinF angle * speed
  let p1 := trailPush { p with angle := angle, x := x, y := y } x y
  if x < 0 ∨ CANVAS_W < x ∨ y < 0 ∨ CANVAS_H < y then
    { p1 with alive := false }
  else p1

/-- `getCellIndex(x, y)` (game.js lines 66-71): `-1` for out-of-grid
coordinates, otherwise `row * GRID_COLS + col` with `col = (x/16)|0`,
`row = (y/16)|0`. -/
def getCellIndex (x y : ℚ) : ℤ :=
  let col := jsTrunc (x / GRID_CELL_SIZE)
  let row := jsTrunc (y / GRID_CELL_SIZE)
  if col < 0 ∨ GRID_COLS ≤ col ∨ row < 0 ∨ GRID_ROWS ≤ row then -1
  else row * GRID_COLS + col

/-- One entry of the point pool `gridPointsX/Y/Player/TrailPos`
(game.js lines 45-48). -/
structure GridPoint where
  x : ℚ
  y : ℚ
  playerIdx : ℕ
  trailPos : ℕ

/-- The module-level spatial-grid state of game.js: `initialized` models
`spatialBitfield !== null`, `occupied` the set of nonzero bitfield cells
(game.js stores the writing player's index, but `checkCollisions` only
tests the cell for zero), `pts` the point pool up to `gridPointCount`,
and `dirty` models `gridDirty`. -/
structure GridEnv where
  initialized : Bool
  occupied : List ℤ
  pts : List GridPoint
  dirty : Bool

/-- `gridInsertPoint` (game.js lines 107-122): no-op before the first
rebuild; otherwise mark the cell occupied and append the point to the pool
if the pool is below `MAX_GRID_ENTRIES`. -/
def gridInsertPoint (env : GridEnv) (trailPosition : ℕ) (x y : ℚ) (playerIndex : ℕ) : GridEnv :=
  if env.initialized = false then env
  else
    let cellIdx := getCellIndex x y
    if 0 ≤ cellIdx then
      { env with
        occupied := cellIdx :: env.occupied
        pts :=
          if env.pts.length < MAX_GRID_ENTRIES then env.pts ++ [⟨x, y, playerIndex, trailPosition⟩]
          else env.pts }
    else env

/-- Inner loop of `rebuildSpatialGrid` (game.js lines 84-101): insert every
trail sample of one (alive) player, tagged with its 1-based player index. -/
def rebuildInsertPlayer (env : GridEnv) (playerIdx : ℕ) (p : Player) : GridEnv :=
  (List.range p.trailLen).foldl
    (fun env i =>
      let idx := trailGetIndex p i
      let cellIdx := getCellIndex (p.trailX idx) (p.trailY idx)
      if 0 ≤ cellIdx then
        { env with
          occupied := cellIdx :: env.occupied
          pts :=
            if env.pts.length < MAX_GRID_ENTRIES then
              env.pts ++ [⟨p.trailX idx, p.trailY idx, playerIdx, i⟩]
            else env.pts }
      else env)
    env

/-- Outer loop of `rebuildSpatialGrid` (game.js lines 78-102): `playerIdx`
is incremented for every player, dead players' trails are not inserted. -/
def rebuildSpatialGridAux : List Player → ℕ → GridEnv → GridEnv
  | [], _, env => env
  | p :: rest, k, env =>
    rebuildSpatialGridAux rest (k + 1)
      (if p.alive then rebuildInsertPlayer env (k + 1) p else env)

/-- `rebuildSpatialGrid(players)` (game.js lines 74-104): allocate/clear the
grid and re-insert every alive player's whole trail. -/
def rebuildSpatialGrid (players : List Player) : GridEnv :=
  rebuildSpatialGridAux players 0
    { initialized := true, occupied := [], pts := [], dirty := false }

/-- The distance test of `checkCollisions` (game.js lines 252-262):
axis-aligned bounding-box reject, then squared Euclidean distance
strictly below `COLLISION_RADIUS_SQ`. -/
def distTest (px py tx ty : ℚ) : Bool :=
  let dx := px - tx
  let dy := py - ty
  if COLLISION_RADIUS < dx ∨ dx < -COLLISION_RADIUS ∨
     COLLISION_RADIUS < dy ∨ dy < -COLLISION_RADIUS then false
  else decide (dx * dx + dy * dy < COLLISION_RADIUS_SQ)

/-- The per-player scan of `checkCollisions` (game.js lines 208-265): look
at the 3x3 cell neighborhood of the player's position; for every pooled
point whose cell is the scanned (occupied) cell, skip it when it is an own
point within the last `COLLISION_SKIP_OWN` trail positions, or a foreign
point with trail position `>= 598`; test every other point. -/
def hitCheck (env : GridEnv) (myIndex : ℕ) (p : Player) : Bool :=
  let px := p.x
  let py := p.y
  let col := jsTrunc (px / GRID_CELL_SIZE)
  let row := jsTrunc (py / GRID_CELL_SIZE)
  ([-1, 0, 1] : List ℤ).any fun dr =>
    ([-1, 0, 1] : List ℤ).any fun dc =>
      let nr := row + dr
      let nc := col + dc
      if nr < 0 ∨ GRID_ROWS ≤ nr ∨ nc < 0 ∨ GRID_COLS ≤ nc then false
      else
        let cellIdx := nr * GRID_COLS + nc
        if env.occupied.contains cellIdx then
          env.pts.any fun pt =>
            if getCellIndex pt.x pt.y ≠ cellIdx then false
            else if pt.playerIdx = myIndex then
              if p.trailLen ≤ pt.trailPos + COLLISION_SKIP_OWN then false
              else distTest px py pt.x pt.y
            else
              if 598 ≤ pt.trailPos then false
              else distTest px py pt.x pt.y
        else false

/-- `checkCollisions` grid refresh (game.js lines 192-194): rebuild when the
grid is dirty or not yet allocated. -/
def checkCollisionsEnv (env : GridEnv) (players : List Player) : GridEnv :=
  if env.dirty ∨ env.initialized = false then rebuildSpatialGrid players else env

/-- Marking loop of `checkCollisions` (game.js lines 196-268): every alive
player whose scan finds a qualifying hit is marked not-alive; `idx` is the
1-based position of the player in the players object. -/
def checkCollisionsAux (env : GridEnv) : List Player → ℕ → List Player
  | [], _ => []
  | p :: rest, idx =>
    (if p.alive && hitCheck env (idx + 1) p then { p with alive := false } else p) ::
      checkCollisionsAux env rest (idx + 1)

/-- `checkCollisions(players)` (game.js lines 190-269). -/
def checkCollisions (env : GridEnv) (players : List Player) : List Player :=
  checkCollisionsAux (checkCollisionsEnv env players) players 0

/-- Modelled from the spec's words (spec section 4.4 and claim C1), for
comparison with `hitCheck`: same 3x3 neighborhood scan, but a foreign
sample is skipped exactly when its owner is not alive or its logical
position is within the last 2 samples of the owner's trail. -/
def hitCheckSpec (env : GridEnv) (players : List Player) (myIndex : ℕ) (p : Player) : Bool :=
  let px := p.x
  let py := p.y
  let col := jsTrunc (px / GRID_CELL_SIZE)
  let row := jsTrunc (py / GRID_CELL_SIZE)
  ([-1, 0, 1] : List ℤ).any fun dr =>
    ([-1, 0, 1] : List ℤ).any fun dc =>
      let nr := row + dr
      let nc := col + dc
      if nr < 0 ∨ GRID_ROWS ≤ nr ∨ nc < 0 ∨ GRID_COLS ≤ nc then false
      else
        let cellIdx := nr * GRID_COLS + nc
        if env.occupied.contains cellIdx then
          env.pts.any fun pt =>
            if getCellIndex pt.x pt.y ≠ cellIdx then false
            else if pt.playerIdx = myIndex then
              if p.trailLen ≤ pt.trailPos + COLLISION_SKIP_OWN then false
              else distTest px py pt.x pt.y
            else
              match players[pt.playerIdx - 1]? with
              | none => false
              | some other =>
                if other.alive = false then false
                else if other.trailLen ≤ pt.trailPos + 2 then false
                else distTest px py pt.x pt.y
        else false

/-- Modelled from the spec's words: the marking loop using `hitCheckSpec`. -/
def checkCollisionsSpecAux (env : GridEnv) (allPlayers : List Player) :
    List Player → ℕ → List Player
  | [], _ => []
  | p :: rest, idx =>
    (if p.alive && hitCheckSpec env allPlayers (idx + 1) p then { p with alive := false } else p) ::
      checkCollisionsSpecAux env allPlayers rest (idx + 1)

/-- Modelled from the spec's words: `checkCollisions` as claim C1 describes
it (skip foreign samples of dead owners, and foreign samples within the
last 2 samples of the owner's trail). -/
def checkCollisionsSpec (env : GridEnv) (players : List Player) : List Player :=
  checkCollisionsSpecAux (checkCollisionsEnv env players) players players 0

/-- Loop of `startRound(players)` (game.js lines 272-293): players with no
lives left are forced dead with their trail reset; the others are placed at
spawn slot `i % spawnConfigs.length` where `i` counts the already-placed
players with lives, with trail reset, `turning = 0` and `alive = true`. -/
def startRoundAux (piv : ℚ) : List Player → ℕ → List Player
  | [], _ => []
  | p :: rest, i =>
    if p.lives ≤ 0 then
      { p with alive := false, trailLen := 0, trailStart := 0, trailSentCount := 0 } ::
        startRoundAux piv rest i
    else
      let spawn := (spawnConfigs piv).getD (i % (spawnConfigs piv).length) ⟨0, 0, 0⟩
      { p with
        x := spawn.x, y := spawn.y, angle := spawn.angle, turning := 0,
        trailLen := 0, trailStart := 0, trailSentCount := 0, alive := true } ::
        startRoundAux piv rest (i + 1)

/-- `startRound(players)` (game.js lines 272-298), the players part.  The
grid reset of the same function (`gridDirty = true`, clear) appears in
`netStartRound` below. -/
def startRound (piv : ℚ) (players : List Player) : List Player :=
  startRoundAux piv players 0

/-- Per-player wire record produced by `serializeGameState`
(game.js lines 362-384); `sid`, `n`, `c`, `si` are the static fields
(`pd.id`, `pd.n`, `pd.c`, `pd.si`) present only on a static broadcast. -/
structure PlayerSnap where
  x : ℤ
  y : ℤ
  a : ℤ
  tu : ℚ
  tl : ℕ
  ts : ℕ
  tc : ℕ
  al : Bool
  s : ℕ
  l : ℕ
  tr : Option (List ℤ)
  sid : Option String
  n : Option String
  c : Option String
  si : Option ℕ

/-- The whole wire state (game.js lines 316-323). -/
structure GameStateMsg where
  p : List (String × PlayerSnap)
  ra : Bool
  cd : ℤ
  rst : Option ℤ
  mw : Option String
  t : ℤ

/-- `(v * 10 + 0.5) | 0`: the fixed-point position encoding of
`serializeGameState` (game.js lines 342-343, 363-364). -/
def enc10 (v : ℚ) : ℤ := jsTrunc (v * 10 + 0.5)

/-- `(v * 1000 + 0.5) | 0`: the heading encoding (game.js line 365). -/
def enc1000 (v : ℚ) : ℤ := jsTrunc (v * 1000 + 0.5)

/-- Per-player body of `serializeGameState` (game.js lines 327-387): delta
trail encoding of the samples past `trailSentCount`, advance of
`trailSentCount` to `trailLen`, and the compact scalar record.  Returns the
wire record and the mutated player. -/
def serializePlayer (p : Player) (sendStatic : Bool) : PlayerSnap × Player :=
  let newCount := p.trailLen - p.trailSentCount
  let trailData : Option (List ℤ) :=
    if 0 < newCount then
      some ((List.range newCount).flatMap fun i =>
        let trailIdx := p.trailSentCount + i
        let idx := (p.trailStart + trailIdx) % TRAIL_MAX
        [enc10 (p.trailX idx), enc10 (p.trailY idx)])
    else none
  let p2 := { p with trailSentCount := p.trailLen }
  ({ x := enc10 p.x
     y := enc10 p.y
     a := enc1000 p.angle
     tu := p.turning
     tl := p.trailLen
     ts := p.trailStart
     tc := p2.trailSentCount
     al := p.alive
     s := p.score
     l := p.lives
     tr := trailData
     sid := if sendStatic then some p.id else none
     n := if sendStatic then some p.name else none
     c := if sendStatic then some p.color else none
     si := if sendStatic then some p.spawnIndex else none }, p2)

/-- `serializeGameState(players, roundActive, countdown, roundStartTime,
matchWinner)` (game.js lines 315-392) over an association list of players;
`sendStatic` models `!staticSentTo.has('_broadcast')` and `now` models
`Date.now()`.  Returns the message and the players with their
`trailSentCount` advanced. -/
def serializeGameState (players : List (String × Player)) (roundActive : Bool)
    (countdown : ℤ) (roundStartTime : Option ℤ) (matchWinner : Option String)
    (sendStatic : Bool) (now : ℤ) : GameStateMsg × List (String × Player) :=
  ({ p := players.map fun ip => (ip.1, (serializePlayer ip.2 sendStatic).1)
     ra := roundActive
     cd := countdown
     rst := roundStartTime
     mw := matchWinner
     t := now },
   players.map fun ip => (ip.1, (serializePlayer ip.2 sendStatic).2))

/-- One iteration of the trail-delta loop of `applyGameState`
(game.js lines 417-426): decode point `i` of the delta, append it at the
write position, clamping the length at `TRAIL_MAX` by advancing
`trailStart`. -/
def applyTrailStep (trail : List ℤ) (p : Player) (i : ℕ) : Player :=
  let idx := (p.trailStart + p.trailLen) % TRAIL_MAX
  let p1 := { p with
    trailX := fun j => if j = idx then (trail.getD (i * 2) 0 : ℚ) / 10 else p.trailX j
    trailY := fun j => if j = idx then (trail.getD (i * 2 + 1) 0 : ℚ) / 10 else p.trailY j
    trailLen := p.trailLen + 1 }
  if TRAIL_MAX < p1.trailLen then
    { p1 with trailStart := (p1.trailStart + 1) % TRAIL_MAX, trailLen := TRAIL_MAX }
  else p1

/-- Trail-delta loop of `applyGameState` (game.js lines 416-426). -/
def applyTrailLoop (p : Player) (trail : List ℤ) : Player :=
  (List.range (trail.length / 2)).foldl (applyTrailStep trail) p

/-- JS `a || b` on an optional string field: empty strings are falsy. -/
def jsOrString (o : Option String) (d : String) : String :=
  match o with
  | some s => if s = "" then d else s
  | none => d

/-- Player synthesis of `applyGameState` (game.js lines 407-411): an
unknown id is created from the provided static fields (`si`, `n`), with
`p.color = ps.c || COLORS[0]`. -/
def applySnapBase (existing : Option Player) (id : String) (ps : PlayerSnap) : Player :=
  match existing with
  | some p => p
  | none =>
    let base := createPlayer id (ps.si.getD 0) ps.n
    { base with color := jsOrString ps.c (COLORS.getD 0 "") }

/-- Trail-delta stage of `applyGameState` (game.js lines 414-428): apply
the decoded delta points if any, then take over the reported `tc`. -/
def applySnapTrail (p0 : Player) (ps : PlayerSnap) : Player :=
  match ps.tr with
  | some trail =>
    if 0 < trail.length then
      { (applyTrailLoop p0 trail) with trailSentCount := ps.tc }
    else p0
  | none => p0

/-- Scalar decode stage of `applyGameState` (game.js lines 439-459),
compact format: divide the fixed-point integers back, take over `alive`,
`score`, `lives`, and nonempty static `n`/`c`. -/
def applySnapScalars (p2 : Player) (ps : PlayerSnap) : Player :=
  let p3 := { p2 with
    x := (ps.x : ℚ) / 10, y := (ps.y : ℚ) / 10, angle := (ps.a : ℚ) / 1000,
    alive := ps.al, score := ps.s, lives := ps.l }
  let p4 := match ps.n with
    | some s => if s = "" then p3 else { p3 with name := s }
    | none => p3
  match ps.c with
  | some s => if s = "" then p4 else { p4 with color := s }
  | none => p4

/-- Per-player body of `applyGameState` (game.js lines 403-460), compact
format (`isCompact = true`, the format `serializeGameState` produces):
synthesize an unknown player, apply the trail delta, reset the trail when
the reported length is 0 (game.js lines 431-436), then decode scalars. -/
def applyPlayerSnap (existing : Option Player) (id : String) (ps : PlayerSnap) : Player :=
  let p1 := applySnapTrail (applySnapBase existing id ps) ps
  let p2 := if ps.tl = 0 then { p1 with trailLen := 0, trailStart := 0, trailSentCount := 0 } else p1
  applySnapScalars p2 ps

/-- Replace the entry of `id`, or append it when absent (JS object key
assignment `players[id] = p`). -/
def setPlayer (players : List (String × Player)) (id : String) (p : Player) :
    List (String × Player) :=
  if (players.lookup id).isSome then
    players.map fun ip => if ip.1 = id then (id, p) else ip
  else players ++ [(id, p)]

/-- `applyGameState(players, state)` (game.js lines 395-461) for the compact
format over an association list of players. -/
def applyGameState (players : List (String × Player)) (msg : GameStateMsg) :
    List (String × Player) :=
  msg.p.foldl
    (fun acc idps => setPlayer acc idps.1 (applyPlayerSnap (acc.lookup idps.1) idps.1 idps.2))
    players

/-- The host-side state of the `Network` class (network.js lines 8-25) that
the claims touch.  `physicsRunning` models `physicsInterval !== null`,
`countdownRunning` that the 1-second countdown interval is active,
`pendingRestartMs` a scheduled auto-restart `setTimeout` and its delay. -/
structure Host where
  players : List Player
  roundActive : Bool
  countdown : ℤ
  roundStartTime : Option ℤ
  matchWinner : Option String
  gameStarted : Bool
  grid : GridEnv
  physicsRunning : Bool
  countdownRunning : Bool
  pendingRestartMs : Option ℕ
  tickCounter : ℕ

/-- Grid side effect of `trailPush` (game.js lines 161, 166): an insert of
the new point tagged `p.spawnIndex + 1` below capacity, `gridDirty = true`
on a wrapping push. -/
def trailPushEnv (env : GridEnv) (p : Player) (x y : ℚ) : GridEnv :=
  if p.trailLen < TRAIL_MAX then
    gridInsertPoint env p.trailLen x y (p.spawnIndex + 1)
  else { env with dirty := true }

/-- Grid side effect of `movePlayer`: the `trailPush` of the computed
position. -/
def movePlayerEnv (cosF sinF : ℚ → ℚ) (env : GridEnv) (p : Player) (speed : ℚ) : GridEnv :=
  let angle := p.angle + p.turning * TURN_SPEED
  let x := p.x + cosF angle * speed
  let y := p.y + sinF angle * speed
  trailPushEnv env p x y

/-- Movement stage of `physicsTick` (network.js lines 420-425): move every
alive player, threading the grid state. -/
def tickMove (cosF sinF : ℚ → ℚ) (speed : ℚ) (players : List Player) (env : GridEnv) :
    List Player × GridEnv :=
  (players.map fun p => if p.alive then movePlayer cosF sinF p speed else p,
   players.foldl (fun env p => if p.alive then movePlayerEnv cosF sinF env p speed else env) env)

/-- Lives stage of `physicsTick` (network.js lines 431-435): a player that
was alive before the tick and is dead after it loses one life, floored at
0 (`Math.max(0, lives - 1)`). -/
def livesAdjust : List Player → List Player → List Player
  | b :: bs, a :: rest =>
    (if b.alive && !a.alive then { a with lives := a.lives - 1 } else a) :: livesAdjust bs rest
  | _, _ => []

/-- `aliveCount` of `physicsTick` (network.js lines 438-441). -/
def countAlive (players : List Player) : ℕ :=
  (players.filter fun p => p.alive).length

/-- The players with `lives > 0` (network.js lines 449-455); the code keeps
their count and the id of the last one in iteration order. -/
def withLives (players : List Player) : List Player :=
  players.filter fun p => 0 < p.lives

/-- Movement/collision/lives stages of `physicsTick` (network.js lines
411-435) plus the broadcast tick counter (lines 484-488). -/
def tickCore (cosF sinF : ℚ → ℚ) (h : Host) (now : ℤ) : Host :=
  let speed := getGameSpeed h.roundStartTime now
  let moved := tickMove cosF sinF speed h.players h.grid
  let env2 := checkCollisionsEnv moved.2 moved.1
  let afterColl := checkCollisions moved.2 moved.1
  let players3 := livesAdjust h.players afterColl
  let tickCounter2 := if 4 ≤ h.tickCounter + 1 then 0 else h.tickCounter + 1
  { h with players := players3, grid := env2, tickCounter := tickCounter2 }

/-- Round/match-end transition of `physicsTick` (network.js lines 438-481):
when at most one player is still alive, stop the round and the physics
clock; with at most one player retaining lives the match ends (the winner
id is the last with-lives player in iteration order, set only when exactly
one remains); otherwise an auto-restart is scheduled 3000 ms out. -/
def roundEndCheck (h : Host) : Host :=
  if countAlive h.players ≤ 1 then
    let base2 := { h with roundActive := false, physicsRunning := false }
    if (withLives h.players).length ≤ 1 then
      if (withLives h.players).length = 1 then
        { base2 with matchWinner := (withLives h.players).getLast?.map fun w => w.id }
      else base2
    else { base2 with pendingRestartMs := some 3000 }
  else h

/-- `physicsTick()` (network.js lines 405-489) for a host: early exit when
the round is not active; otherwise movement, collision detection, lives
decrement, and the round/match-end transition.  Broadcasts are not part of
the state; `setTimeout(…, 3000)` is recorded as `pendingRestartMs`. -/
def physicsTick (cosF sinF : ℚ → ℚ) (h : Host) (now : ℤ) : Host :=
  if h.roundActive = false then { h with physicsRunning := false }
  else roundEndCheck (tickCore cosF sinF h now)

/-- The auto-restart `setTimeout` callback (network.js lines 472-479): if
the game is still started, set `countdown = 3` and re-enter the countdown
phase (`runCountdown`). -/
def autoRestartFire (h : Host) : Host :=
  if h.gameStarted then
    { h with countdown := 3, countdownRunning := true, pendingRestartMs := none }
  else h

/-- `startGame()` (network.js lines 318-353) for a host: reject with the
user-visible message when fewer than 2 players are present; otherwise reset
lives and scores, set the countdown, and start the countdown interval.
The second component is the emitted error message, if any. -/
def startGame (h : Host) : Host × Option String :=
  if h.players.length < 2 then (h, some "Need at least 2 players!")
  else
    ({ h with
        gameStarted := true
        roundActive := false
        countdown := 3
        matchWinner := none
        players := h.players.map fun p => { p with lives := MAX_LIVES, score := 0 }
        countdownRunning := true }, none)

/-- `handleMessage` case `'restart'` (network.js lines 232-237) on a host:
start a new match only when `matchWinner` is set; otherwise the request is
silently dropped. -/
def handleRestart (h : Host) : Host × Option String :=
  if h.matchWinner.isSome then startGame h else (h, none)

/-- `Network.startRound()` (network.js lines 374-384) plus the grid reset
performed inside `game.startRound` (game.js lines 295-297): place the
players, clear and dirty the grid, set `roundStartTime` to now,
`roundActive = true`, null the match winner and start the physics loop. -/
def netStartRound (piv : ℚ) (h : Host) (now : ℤ) : Host :=
  { h with
    players := startRound piv h.players
    roundActive := true
    roundStartTime := some now
    matchWinner := none
    physicsRunning := true
    tickCounter := 0
    grid := { initialized := h.grid.initialized, occupied := [], pts := [], dirty := true } }

lemma string_length_eq_zero (s : String) : s.length = 0 ↔ s = "" := by
  constructor
  · intro h
    cases s with
    | mk data =>
      cases data with
      | nil => rfl
      | cons c cs => simp [String.length] at h
  · intro h; subst h; rfl

lemma jsTrunc_of_nonneg {q : ℚ} (h : 0 ≤ q) : jsTrunc q = ⌊q⌋ := by
  simp [jsTrunc, h]

/-- C10: `createPlayer(id, index, name)` yields display name `"Player"` when
the name is not a string or is all whitespace, otherwise the trimmed name;
the new competitor starts with `MAX_LIVES` lives, alive, an empty trail
(`trailLen`, `trailStart`, `trailSentCount` all 0) and color
`COLORS[index % 8]`. -/
theorem createPlayer_spec (id : String) (index : ℕ) (name : Option String) :
    ((name = none ∨ ∃ s, name = some s ∧ jsTrim s = "") →
      (createPlayer id index name).name = "Player") ∧
    (∀ s, name = some s → jsTrim s ≠ "" → (createPlayer id index name).name = jsTrim s) ∧
    (createPlayer id index name).lives = MAX_LIVES ∧
    (createPlayer id index name).alive = true ∧
    (createPlayer id index name).trailLen = 0 ∧
    (createPlayer id index name).trailStart = 0 ∧
    (createPlayer id index name).trailSentCount = 0 ∧
    (createPlayer id index name).color = COLORS.getD (index % 8) "" := by
  refine ⟨?_, ?_, rfl, rfl, rfl, rfl, rfl, rfl⟩
  · rintro (h | ⟨s, rfl, hs⟩)
    · subst h; rfl
    · have hz : (jsTrim s).length = 0 := (string_length_eq_zero _).mpr hs
      simp [createPlayer, hz]
  · intro s hs hne
    subst hs
    have hz : 0 < (jsTrim s).length := by
      rcases Nat.eq_zero_or_pos (jsTrim s).length with h0 | h0
      · exact absurd ((string_length_eq_zero _).mp h0) hne
      · exact h0
    simp [createPlayer, hz]

theorem createPlayer_spec_witness :
    (createPlayer "host" 10 (some " Neo ")).name = jsTrim " Neo " ∧
    (createPlayer "host" 10 (some " Neo ")).lives = MAX_LIVES := by
  have h := createPlayer_spec "host" 10 (some " Neo ")
  exact ⟨h.2.1 " Neo " rfl (by decide), h.2.2.1⟩

/-- C8: `getGameSpeed` returns `BASE_SPEED` for an absent start time and at
elapsed 0; otherwise it is `min (BASE_SPEED + ⌊elapsedSeconds /
SPEED_INTERVAL⌋ * SPEED_INCREMENT) MAX_SPEED`, which is `BASE_SPEED + 0.5`
at elapsed 10 s, monotone in the elapsed time, and equals `MAX_SPEED` for
elapsed at least `(MAX_SPEED - BASE_SPEED) / SPEED_INCREMENT *
SPEED_INTERVAL = 110` seconds. -/
theorem getGameSpeed_spec :
    (MAX_SPEED - BASE_SPEED) / SPEED_INCREMENT * SPEED_INTERVAL = 110 ∧
    (∀ now, getGameSpeed none now = BASE_SPEED) ∧
    (∀ rst : ℤ, rst ≠ 0 → getGameSpeed (some rst) rst = BASE_SPEED) ∧
    (∀ rst now : ℤ, rst ≠ 0 → rst ≤ now →
      getGameSpeed (some rst) now =
        min (BASE_SPEED +
            (⌊((now : ℚ) - (rst : ℚ)) / 1000 / SPEED_INTERVAL⌋ : ℚ) * SPEED_INCREMENT)
          MAX_SPEED) ∧
    (∀ rst : ℤ, rst ≠ 0 → getGameSpeed (some rst) (rst + 10000) = BASE_SPEED + 0.5) ∧
    (∀ rst now1 now2 : ℤ, rst ≠ 0 → rst ≤ now1 → now1 ≤ now2 →
      getGameSpeed (some rst) now1 ≤ getGameSpeed (some rst) now2) ∧
    (∀ rst now : ℤ, rst ≠ 0 → 110000 ≤ now - rst → getGameSpeed (some rst) now = MAX_SPEED) := by
  have elapsed_nonneg : ∀ rst now : ℤ, rst ≤ now →
      (0 : ℚ) ≤ ((now : ℚ) - (rst : ℚ)) / 1000 / SPEED_INTERVAL := by
    intro rst now hle
    have h1 : ((rst : ℚ)) ≤ (now : ℚ) := by exact_mod_cast hle
    have h2 : (0 : ℚ) ≤ (now : ℚ) - (rst : ℚ) := by linarith
    have h3 : (0 : ℚ) ≤ SPEED_INTERVAL := by norm_num [SPEED_INTERVAL]
    exact div_nonneg (div_nonneg h2 (by norm_num)) h3
  have key : ∀ rst now : ℤ, rst ≠ 0 → rst ≤ now →
      getGameSpeed (some rst) now =
        min (BASE_SPEED +
            (⌊((now : ℚ) - (rst : ℚ)) / 1000 / SPEED_INTERVAL⌋ : ℚ) * SPEED_INCREMENT)
          MAX_SPEED := by
    intro rst now hrst hle
    simp only [getGameSpeed, if_neg hrst]
    rw [jsTrunc_of_nonneg (elapsed_nonneg rst now hle)]
  refine ⟨by norm_num [MAX_SPEED, BASE_SPEED, SPEED_INCREMENT, SPEED_INTERVAL], fun _ => rfl,
    ?_, key, ?_, ?_, ?_⟩
  · intro rst hrst
    rw [key rst rst hrst le_rfl]
    have h0 : ((rst : ℚ)) - (rst : ℚ) = 0 := by ring
    rw [h0]
    norm_num [BASE_SPEED, SPEED_INTERVAL, MAX_SPEED]
  · intro rst hrst
    rw [key rst (rst + 10000) hrst (by omega)]
    have h0 : ((rst + 10000 : ℤ) : ℚ) - (rst : ℚ) = 10000 := by push_cast; ring
    rw [h0]
    norm_num [BASE_SPEED, SPEED_INTERVAL, MAX_SPEED, SPEED_INCREMENT]
  · intro rst now1 now2 hrst h1 h2
    rw [key rst now1 hrst h1, key rst now2 hrst (le_trans h1 h2)]
    have hfl : ⌊((now1 : ℚ) - (rst : ℚ)) / 1000 / SPEED_INTERVAL⌋ ≤
        ⌊((now2 : ℚ) - (rst : ℚ)) / 1000 / SPEED_INTERVAL⌋ := by
      apply Int.floor_le_floor
      have hc : ((now1 : ℚ)) ≤ ((now2 : ℚ)) := Int.cast_le.mpr h2
      have hInt : (0 : ℚ) < SPEED_INTERVAL := by norm_num [SPEED_INTERVAL]
      gcongr
    refine min_le_min (add_le_add_left ?_ _) le_rfl
    have hc : ((⌊((now1 : ℚ) - (rst : ℚ)) / 1000 / SPEED_INTERVAL⌋ : ℚ)) ≤
        ((⌊((now2 : ℚ) - (rst : ℚ)) / 1000 / SPEED_INTERVAL⌋ : ℚ)) := Int.cast_le.mpr hfl
    have hinc : (0 : ℚ) ≤ SPEED_INCREMENT := by norm_num [SPEED_INCREMENT]
    exact mul_le_mul_of_nonneg_right hc hinc
  · intro rst now hrst hle
    rw [key rst now hrst (by omega)]
    have hcast : (110000 : ℚ) ≤ (now : ℚ) - (rst : ℚ) := by
      have h0 : ((110000 : ℤ) : ℚ) ≤ ((now - rst : ℤ) : ℚ) := by exact_mod_cast hle
      push_cast at h0
      linarith
    have hb : (11 : ℤ) ≤ ⌊((now : ℚ) - (rst : ℚ)) / 1000 / SPEED_INTERVAL⌋ := by
      apply Int.le_floor.mpr
      rw [div_div]
      rw [le_div_iff₀ (by norm_num [SPEED_INTERVAL])]
      norm_num [SPEED_INTERVAL]
      linarith
    apply min_eq_right
    have hc : (11 : ℚ) ≤ (⌊((now : ℚ) - (rst : ℚ)) / 1000 / SPEED_INTERVAL⌋ : ℚ) := by
      exact_mod_cast hb
    norm_num [BASE_SPEED, MAX_SPEED, SPEED_INCREMENT]
    linarith

theorem getGameSpeed_spec_witness :
    getGameSpeed (some 5) 115005 = MAX_SPEED :=
  getGameSpeed_spec.2.2.2.2.2.2 5 115005 (by norm_num) (by norm_num)

/-- The logical sample `i` of a trail: physical slot `(start + i) % TRAIL_MAX`. -/
def trailNth (p : Player) (i : ℕ) : ℚ × ℚ :=
  (p.trailX (trailGetIndex p i), p.trailY (trailGetIndex p i))

/-- A sequence of `trailPush` calls. -/
def pushSeq (p : Player) (xs : List (ℚ × ℚ)) : Player :=
  xs.foldl (fun q xy => trailPush q xy.1 xy.2) p

/-- Relation between a trail store and the full history of pushed samples:
the store holds the last `min N TRAIL_MAX` samples of the history, oldest
at logical index 0. -/
def TrailInv (hist : List (ℚ × ℚ)) (p : Player) : Prop :=
  p.trailLen = min hist.length TRAIL_MAX ∧
  p.trailStart = (hist.length - p.trailLen) % TRAIL_MAX ∧
  ∀ i, i < p.trailLen → trailNth p i = hist.getD (hist.length - p.trailLen + i) (0, 0)

lemma trailInv_push (hist : List (ℚ × ℚ)) (p : Player) (xy : ℚ × ℚ)
    (h : TrailInv hist p) : TrailInv (hist ++ [xy]) (trailPush p xy.1 xy.2) := by
  obtain ⟨hL, hS, hN⟩ := h
  have hT : TRAIL_MAX = 600 := rfl
  rw [hT] at hL hS
  unfold TrailInv trailPush
  simp only [List.length_append, List.length_singleton]
  by_cases hlt : p.trailLen < TRAIL_MAX
  · rw [if_pos hlt]
    rw [hT] at hlt
    have hNlt : hist.length < 600 := by omega
    have hlen : p.trailLen = hist.length := by omega
    have hst : p.trailStart = 0 := by omega
    refine ⟨?_, ?_, ?_⟩
    · show p.trailLen + 1 = min (hist.length + 1) TRAIL_MAX
      rw [hT]; omega
    · show p.trailStart = (hist.length + 1 - (p.trailLen + 1)) % TRAIL_MAX
      rw [hT]; omega
    · intro i hi
      have hi1 : i < p.trailLen + 1 := hi
      show ((if (p.trailStart + i) % TRAIL_MAX = (p.trailStart + p.trailLen) % TRAIL_MAX
              then xy.1 else p.trailX ((p.trailStart + i) % TRAIL_MAX)),
            (if (p.trailStart + i) % TRAIL_MAX = (p.trailStart + p.trailLen) % TRAIL_MAX
              then xy.2 else p.trailY ((p.trailStart + i) % TRAIL_MAX))) =
          (hist ++ [xy]).getD (hist.length + 1 - (p.trailLen + 1) + i) (0, 0)
      rcases Nat.lt_or_ge i p.trailLen with hi2 | hi2
      · have hne : (p.trailStart + i) % TRAIL_MAX ≠ (p.trailStart + p.trailLen) % TRAIL_MAX := by
          rw [hT]; omega
        rw [if_neg hne, if_neg hne]
        have h0 := hN i hi2
        unfold trailNth trailGetIndex at h0
        have hidx : hist.length - p.trailLen + i = i := by omega
        rw [hidx] at h0
        have hidx2 : hist.length + 1 - (p.trailLen + 1) + i = i := by omega
        rw [hidx2, List.getD_append _ _ _ _ (by omega)]
        exact h0
      · have hieq : i = p.trailLen := by omega
        have hcond : (p.trailStart + i) % TRAIL_MAX = (p.trailStart + p.trailLen) % TRAIL_MAX := by
          rw [hieq]
        rw [if_pos hcond, if_pos hcond]
        have hidx2 : hist.length + 1 - (p.trailLen + 1) + i = hist.length := by omega
        rw [hidx2]
        have hend : (hist ++ [xy]).getD hist.length (0, 0) = xy := by
          simp [List.getD_eq_getElem?_getD]
        rw [hend]
  · rw [if_neg hlt]
    rw [hT] at hlt
    have hge : 600 ≤ hist.length := by omega
    have hlen : p.trailLen = 600 := by omega
    have hstlt : p.trailStart < 600 := by omega
    refine ⟨?_, ?_, ?_⟩
    · show p.trailLen = min (hist.length + 1) TRAIL_MAX
      rw [hT]; omega
    · show (p.trailStart + 1) % TRAIL_MAX = (hist.length + 1 - p.trailLen) % TRAIL_MAX
      rw [hT]; omega
    · intro i hi
      have hi1 : i < p.trailLen := hi
      show ((if ((p.trailStart + 1) % TRAIL_MAX + i) % TRAIL_MAX = p.trailStart
              then xy.1 else p.trailX (((p.trailStart + 1) % TRAIL_MAX + i) % TRAIL_MAX)),
            (if ((p.trailStart + 1) % TRAIL_MAX + i) % TRAIL_MAX = p.trailStart
              then xy.2 else p.trailY (((p.trailStart + 1) % TRAIL_MAX + i) % TRAIL_MAX))) =
          (hist ++ [xy]).getD (hist.length + 1 - p.trailLen + i) (0, 0)
      rcases Nat.lt_or_ge i 599 with hi2 | hi2
      · have hne : ((p.trailStart + 1) % TRAIL_MAX + i) % TRAIL_MAX ≠ p.trailStart := by
          rw [hT]; omega
        rw [if_neg hne, if_neg hne]
        have hslot : ((p.trailStart + 1) % TRAIL_MAX + i) % TRAIL_MAX =
            (p.trailStart + (i + 1)) % TRAIL_MAX := by
          rw [hT]; omega
        rw [hslot]
        have h0 := hN (i + 1) (by omega)
        unfold trailNth trailGetIndex at h0
        have hidx2 : hist.length + 1 - p.trailLen + i = hist.length - p.trailLen + (i + 1) := by
          omega
        rw [hidx2, List.getD_append _ _ _ _ (by omega)]
        exact h0
      · have hieq : i = 599 := by omega
        subst hieq
        have heq : ((p.trailStart + 1) % TRAIL_MAX + 599) % TRAIL_MAX = p.trailStart := by
          rw [hT]; omega
        rw [heq, if_pos rfl, if_pos rfl]
        have hidx2 : hist.length + 1 - p.trailLen + 599 = hist.length := by omega
        rw [hidx2]
        have hend : (hist ++ [xy]).getD hist.length (0, 0) = xy := by
          simp [List.getD_eq_getElem?_getD]
        rw [hend]

lemma trailInv_pushSeq : ∀ (xs hist : List (ℚ × ℚ)) (p : Player),
    TrailInv hist p → TrailInv (hist ++ xs) (pushSeq p xs) := by
  intro xs
  induction xs with
  | nil => intro hist p h; simpa [pushSeq] using h
  | cons a l ih =>
    intro hist p h
    have h2 := ih (hist ++ [a]) (trailPush p a.1 a.2) (trailInv_push hist p a h)
    rw [List.append_assoc] at h2
    simpa [pushSeq] using h2

lemma trailInv_fresh (id : String) : TrailInv [] (createPlayer id 0 none) := by
  refine ⟨rfl, rfl, ?_⟩
  intro i hi
  simp [createPlayer] at hi

/-- C3: pushing `N > TRAIL_MAX` samples never grows the trail past
`TRAIL_MAX`; afterwards the oldest surviving sample (logical index 0) is
the `(N - TRAIL_MAX)`-th pushed sample (0-based); and every push at full
capacity keeps the length, overwrites the physical slot of the previous
oldest sample, advances `trailStart` by 1 mod `TRAIL_MAX`, and decrements
`trailSentCount` by 1 floored at 0 (ℕ-subtraction). -/
theorem trailPush_seq_spec :
    (∀ (id : String) (xs : List (ℚ × ℚ)),
      (pushSeq (createPlayer id 0 none) xs).trailLen ≤ TRAIL_MAX) ∧
    (∀ (id : String) (xs : List (ℚ × ℚ)), TRAIL_MAX < xs.length →
      (pushSeq (createPlayer id 0 none) xs).trailLen = TRAIL_MAX ∧
      trailNth (pushSeq (createPlayer id 0 none) xs) 0 = xs.getD (xs.length - TRAIL_MAX) (0, 0)) ∧
    (∀ (p : Player) (x y : ℚ), p.trailLen = TRAIL_MAX →
      (trailPush p x y).trailLen = TRAIL_MAX ∧
      (trailPush p x y).trailStart = (p.trailStart + 1) % TRAIL_MAX ∧
      (trailPush p x y).trailX p.trailStart = x ∧
      (trailPush p x y).trailY p.trailStart = y ∧
      (trailPush p x y).trailSentCount = p.trailSentCount - 1) := by
  have base : ∀ (id : String) (xs : List (ℚ × ℚ)),
      TrailInv xs (pushSeq (createPlayer id 0 none) xs) := by
    intro id xs
    have h := trailInv_pushSeq xs [] (createPlayer id 0 none) (trailInv_fresh id)
    simpa using h
  refine ⟨?_, ?_, ?_⟩
  · intro id xs
    rw [(base id xs).1]
    exact min_le_right _ _
  · intro id xs hbig
    obtain ⟨hL, hSt, hSam⟩ := base id xs
    have hlen : (pushSeq (createPlayer id 0 none) xs).trailLen = TRAIL_MAX := by
      rw [hL]; exact min_eq_right (le_of_lt hbig)
    refine ⟨hlen, ?_⟩
    have h0 := hSam 0 (by rw [hlen]; decide)
    rw [hlen] at h0
    simpa using h0
  · intro p x y hfull
    have hnlt : ¬ p.trailLen < TRAIL_MAX := by omega
    unfold trailPush
    rw [if_neg hnlt]
    exact ⟨hfull, rfl, by simp, by simp, rfl⟩

theorem trailPush_seq_spec_witness :
    (trailPush { createPlayer "w" 0 none with trailLen := TRAIL_MAX, trailSentCount := 5 } 7 8).trailSentCount = 5 - 1 ∧
    (trailPush { createPlayer "w" 0 none with trailLen := TRAIL_MAX, trailSentCount := 5 } 7 8).trailStart = (0 + 1) % TRAIL_MAX := by
  have h := trailPush_seq_spec.2.2
    { createPlayer "w" 0 none with trailLen := TRAIL_MAX, trailSentCount := 5 } 7 8 rfl
  exact ⟨h.2.2.2.2, h.2.1⟩

lemma trailPush_x (p : Player) (x y : ℚ) : (trailPush p x y).x = p.x := by
  unfold trailPush; split <;> rfl

lemma trailPush_y (p : Player) (x y : ℚ) : (trailPush p x y).y = p.y := by
  unfold trailPush; split <;> rfl

lemma trailPush_alive (p : Player) (x y : ℚ) : (trailPush p x y).alive = p.alive := by
  unfold trailPush; split <;> rfl

lemma movePlayer_x (cosF sinF : ℚ → ℚ) (p : Player) (speed : ℚ) :
    (movePlayer cosF sinF p speed).x =
      p.x + cosF (p.angle + p.turning * TURN_SPEED) * speed := by
  simp only [movePlayer]
  split
  · simp [trailPush_x]
  · simp [trailPush_x]

lemma movePlayer_y (cosF sinF : ℚ → ℚ) (p : Player) (speed : ℚ) :
    (movePlayer cosF sinF p speed).y =
      p.y + sinF (p.angle + p.turning * TURN_SPEED) * speed := by
  simp only [movePlayer]
  split
  · simp [trailPush_y]
  · simp [trailPush_y]

lemma roundEndCheck_players (g : Host) : (roundEndCheck g).players = g.players := by
  unfold roundEndCheck
  split
  · split
    · split <;> rfl
    · rfl
  · rfl

lemma physicsTick_players (cosF sinF : ℚ → ℚ) (h : Host) (now : ℤ)
    (hra : h.roundActive = true) :
    (physicsTick cosF sinF h now).players =
      livesAdjust h.players
        (checkCollisions
          (tickMove cosF sinF (getGameSpeed h.roundStartTime now) h.players h.grid).2
          (tickMove cosF sinF (getGameSpeed h.roundStartTime now) h.players h.grid).1) := by
  unfold physicsTick
  rw [hra]
  simp only [Bool.true_eq_false, if_false]
  rw [roundEndCheck_players]
  rfl

lemma checkCollisionsAux_getElem? (env : GridEnv) :
    ∀ (l : List Player) (k i : ℕ),
      (checkCollisionsAux env l k)[i]? = (l[i]?).map fun p =>
        if p.alive && hitCheck env (k + i + 1) p then { p with alive := false } else p := by
  intro l
  induction l with
  | nil => intro k i; simp [checkCollisionsAux]
  | cons p rest ih =>
    intro k i
    cases i with
    | zero => simp [checkCollisionsAux]
    | succ j =>
      simp only [checkCollisionsAux, List.getElem?_cons_succ]
      rw [ih (k + 1) j]
      have harith : k + 1 + j + 1 = k + (j + 1) + 1 := by omega
      rw [harith]

lemma livesAdjust_alive :
    ∀ (b a : List Player) (i : ℕ) (pc : Player),
      (livesAdjust b a)[i]? = some pc →
      ∃ ap, a[i]? = some ap ∧ pc.alive = ap.alive := by
  intro b
  induction b with
  | nil => intro a i pc hpc; simp [livesAdjust] at hpc
  | cons bp bs ih =>
    intro a i pc hpc
    cases a with
    | nil => simp [livesAdjust] at hpc
    | cons ap rest =>
      cases i with
      | zero =>
        simp only [livesAdjust, List.getElem?_cons_zero, Option.some.injEq] at hpc
        refine ⟨ap, by simp, ?_⟩
        subst hpc
        split <;> rfl
      | succ j =>
        simp only [livesAdjust, List.getElem?_cons_succ] at hpc ⊢
        exact ih rest j pc hpc

/-- C5: a competitor whose computed position leaves `[0, CANVAS_W] x
[0, CANVAS_H]` on either axis is marked not-alive inside the same
`movePlayer` call; and since `physicsTick` moves all players (`tickMove`)
before running `checkCollisions`, any such wall death is already in force
in the list handed to collision detection and persists in the tick's
resulting players. -/
theorem wall_death_spec :
    (∀ (cosF sinF : ℚ → ℚ) (p : Player) (speed : ℚ),
      ((movePlayer cosF sinF p speed).x < 0 ∨ CANVAS_W < (movePlayer cosF sinF p speed).x ∨
       (movePlayer cosF sinF p speed).y < 0 ∨ CANVAS_H < (movePlayer cosF sinF p speed).y) →
      (movePlayer cosF sinF p speed).alive = false) ∧
    (∀ (cosF sinF : ℚ → ℚ) (h : Host) (now : ℤ) (i : ℕ) (pm : Player),
      h.roundActive = true →
      (tickMove cosF sinF (getGameSpeed h.roundStartTime now) h.players h.grid).1[i]? = some pm →
      (pm.x < 0 ∨ CANVAS_W < pm.x ∨ pm.y < 0 ∨ CANVAS_H < pm.y) →
      pm.alive = false ∧
      ∀ pc, (physicsTick cosF sinF h now).players[i]? = some pc → pc.alive = false) := by
  have part1 : ∀ (cosF sinF : ℚ → ℚ) (p : Player) (speed : ℚ),
      ((movePlayer cosF sinF p speed).x < 0 ∨ CANVAS_W < (movePlayer cosF sinF p speed).x ∨
       (movePlayer cosF sinF p speed).y < 0 ∨ CANVAS_H < (movePlayer cosF sinF p speed).y) →
      (movePlayer cosF sinF p speed).alive = false := by
    intro cosF sinF p speed hout
    rw [movePlayer_x, movePlayer_y] at hout
    simp only [movePlayer]
    rw [if_pos hout]
  refine ⟨part1, ?_⟩
  intro cosF sinF h now i pm hra hget hout
  have hmap : (h.players[i]?).map
      (fun p => if p.alive then
        movePlayer cosF sinF p (getGameSpeed h.roundStartTime now) else p) = some pm := by
    rw [← List.getElem?_map]
    exact hget
  have hpm : pm.alive = false := by
    cases hp0 : h.players[i]? with
    | none => rw [hp0] at hmap; simp at hmap
    | some p0 =>
      rw [hp0] at hmap
      simp only [Option.map_some', Option.some.injEq] at hmap
      by_cases hal : p0.alive
      · rw [if_pos hal] at hmap
        subst hmap
        exact part1 cosF sinF p0 _ hout
      · rw [if_neg hal] at hmap
        subst hmap
        simpa using hal
  refine ⟨hpm, ?_⟩
  intro pc hpc
  rw [physicsTick_players cosF sinF h now hra] at hpc
  obtain ⟨ap, hap, haliveeq⟩ := livesAdjust_alive _ _ _ _ hpc
  unfold checkCollisions at hap
  rw [checkCollisionsAux_getElem?] at hap
  rw [hget] at hap
  simp only [Option.map_some', Option.some.injEq] at hap
  rw [hpm] at hap
  simp only [Bool.false_and, Bool.false_eq_true, if_false] at hap
  rw [haliveeq, ← hap]
  exact hpm

theorem wall_death_spec_witness :
    (movePlayer (fun _ => 1) (fun _ => 0)
      { createPlayer "w" 0 none with x := 1399 } 2).alive = false := by
  apply wall_death_spec.1
  right; left
  rw [movePlayer_x]
  norm_num [createPlayer, CANVAS_W, TURN_SPEED]

/-- A host state with no players, no started game and no match winner. -/
def hostIdle : Host :=
  { players := [], roundActive := false, countdown := 0, roundStartTime := none,
    matchWinner := none, gameStarted := false,
    grid := { initialized := false, occupied := [], pts := [], dirty := true },
    physicsRunning := false, countdownRunning := false, pendingRestartMs := none,
    tickCounter := 0 }

/-- C9 counterexample: a restart request arriving while `matchWinner` is
null leaves the state unchanged but produces no user-visible message (the
handler silently ignores it), refuting the claim that it is rejected with a
user-visible message. -/
theorem lifecycle_restart_counterexample :
    hostIdle.matchWinner = none ∧
    handleRestart hostIdle = (hostIdle, none) ∧
    (handleRestart hostIdle).2 = none :=
  ⟨rfl, rfl, rfl⟩

/-- C9 (amended): a start-match request with fewer than 2 participants is
rejected with the user-visible message "Need at least 2 players!" and
leaves the host state unchanged; a restart request received while no match
end is pending (`matchWinner` null) leaves the state unchanged but is
silently ignored, with no message. -/
theorem lifecycle_reject_spec (h : Host) :
    (h.players.length < 2 → startGame h = (h, some "Need at least 2 players!")) ∧
    (h.matchWinner = none → handleRestart h = (h, none)) := by
  constructor
  · intro hlt
    unfold startGame
    rw [if_pos hlt]
  · intro hmw
    unfold handleRestart
    rw [hmw]
    simp

theorem lifecycle_reject_spec_witness :
    startGame hostIdle = (hostIdle, some "Need at least 2 players!") :=
  (lifecycle_reject_spec hostIdle).1 (by decide)

lemma startRoundAux_getElem? (piv : ℚ) :
    ∀ (l : List Player) (k i : ℕ),
      (startRoundAux piv l k)[i]? = (l[i]?).map fun p =>
        if p.lives ≤ 0 then
          { p with alive := false, trailLen := 0, trailStart := 0, trailSentCount := 0 }
        else
          { p with
            x := ((spawnConfigs piv).getD
              ((k + ((l.take i).filter fun q => 0 < q.lives).length) %
                (spawnConfigs piv).length) ⟨0, 0, 0⟩).x
            y := ((spawnConfigs piv).getD
              ((k + ((l.take i).filter fun q => 0 < q.lives).length) %
                (spawnConfigs piv).length) ⟨0, 0, 0⟩).y
            angle := ((spawnConfigs piv).getD
              ((k + ((l.take i).filter fun q => 0 < q.lives).length) %
                (spawnConfigs piv).length) ⟨0, 0, 0⟩).angle
            turning := 0, trailLen := 0, trailStart := 0, trailSentCount := 0,
            alive := true } := by
  intro l
  induction l with
  | nil => intro k i; simp [startRoundAux]
  | cons p rest ih =>
    intro k i
    by_cases hl : p.lives ≤ 0
    · have hfilt : ¬ (0 < p.lives) := by omega
      cases i with
      | zero =>
        simp only [startRoundAux]
        rw [if_pos hl]
        simp only [List.getElem?_cons_zero, Option.map_some']
        rw [if_pos hl]
      | succ j =>
        simp only [startRoundAux]
        rw [if_pos hl]
        simp only [List.getElem?_cons_succ, List.take_succ_cons]
        rw [ih k j]
        rw [List.filter_cons_of_neg (by simpa using hfilt)]
    · have hfilt : 0 < p.lives := by omega
      cases i with
      | zero =>
        simp only [startRoundAux]
        rw [if_neg hl]
        simp only [List.getElem?_cons_zero, Option.map_some']
        rw [if_neg hl]
        simp
      | succ j =>
        simp only [startRoundAux]
        rw [if_neg hl]
        simp only [List.getElem?_cons_succ, List.take_succ_cons]
        rw [ih (k + 1) j]
        rw [List.filter_cons_of_pos (by simpa using hfilt)]
        simp only [List.length_cons]
        have harith : ∀ r : ℕ, k + 1 + r = k + (r + 1) := by omega
        cases hrj : rest[j]? with
        | none => simp
        | some q =>
          simp only [Option.map_some', Option.some.injEq]
          by_cases hq : q.lives ≤ 0
          · rw [if_pos hq, if_pos hq]
          · rw [if_neg hq, if_neg hq]
            rw [harith (((rest.take j).filter fun q => decide (0 < q.lives)).length)]

/-- C6: after `startRound` (as called by the host's round start), the round
is active and `roundStartTime` is the current time; every competitor with
0 lives is forced not-alive with its trail reset and keeps its position
(excluded from spawn assignment); every competitor with lives is placed at
the spawn slot indexed by its rank among the with-lives competitors modulo
the number of spawn slots, with trail reset, `turning = 0` and alive. -/
theorem startRound_spec (piv : ℚ) (h : Host) (now : ℤ) :
    (netStartRound piv h now).roundActive = true ∧
    (netStartRound piv h now).roundStartTime = some now ∧
    ∀ i p, h.players[i]? = some p →
      ∃ p2, (netStartRound piv h now).players[i]? = some p2 ∧
        (p.lives = 0 →
          p2.alive = false ∧ p2.trailLen = 0 ∧ p2.trailStart = 0 ∧ p2.trailSentCount = 0 ∧
          p2.x = p.x ∧ p2.y = p.y) ∧
        (0 < p.lives →
          p2.x = ((spawnConfigs piv).getD
            ((((h.players.take i).filter fun q => 0 < q.lives).length) %
              (spawnConfigs piv).length) ⟨0, 0, 0⟩).x ∧
          p2.y = ((spawnConfigs piv).getD
            ((((h.players.take i).filter fun q => 0 < q.lives).length) %
              (spawnConfigs piv).length) ⟨0, 0, 0⟩).y ∧
          p2.angle = ((spawnConfigs piv).getD
            ((((h.players.take i).filter fun q => 0 < q.lives).length) %
              (spawnConfigs piv).length) ⟨0, 0, 0⟩).angle ∧
          p2.turning = 0 ∧
          p2.alive = true ∧ p2.trailLen = 0 ∧ p2.trailStart = 0 ∧ p2.trailSentCount = 0) := by
  refine ⟨rfl, rfl, ?_⟩
  intro i p hp
  have hplayers : (netStartRound piv h now).players = startRoundAux piv h.players 0 := rfl
  rw [hplayers, startRoundAux_getElem? piv h.players 0 i, hp]
  simp only [Option.map_some']
  refine ⟨_, rfl, ?_, ?_⟩
  · intro hdead
    rw [if_pos (by omega : p.lives ≤ 0)]
    simp
  · intro halive
    rw [if_neg (by omega : ¬ p.lives ≤ 0)]
    simp

theorem startRound_spec_witness :
    ∃ p2, (netStartRound 3 { hostIdle with
        players := [createPlayer "a" 0 (some "A")] } 5).players[0]? = some p2 ∧
      p2.alive = true :=
  match (startRound_spec 3 { hostIdle with players := [createPlayer "a" 0 (some "A")] } 5).2.2
      0 (createPlayer "a" 0 (some "A")) rfl with
  | ⟨p2, hp2, _, halive⟩ => ⟨p2, hp2, (halive (by decide)).2.2.2.2.1⟩

/-- The counters invariant of a trail store: `0 ≤ sentCount ≤ length ≤
capacity` (the lower bound is implicit in ℕ). -/
def TrailBoundsInv (p : Player) : Prop :=
  p.trailSentCount ≤ p.trailLen ∧ p.trailLen ≤ TRAIL_MAX

lemma applyTrailStep_counters (trail : List ℤ) (p : Player) (i : ℕ)
    (h : p.trailLen ≤ TRAIL_MAX) :
    (applyTrailStep trail p i).trailLen = min (p.trailLen + 1) TRAIL_MAX ∧
    (applyTrailStep trail p i).trailSentCount = p.trailSentCount := by
  have hT : TRAIL_MAX = 600 := rfl
  unfold applyTrailStep
  by_cases hlt : TRAIL_MAX < p.trailLen + 1
  · rw [if_pos hlt]
    refine ⟨?_, rfl⟩
    show TRAIL_MAX = min (p.trailLen + 1) TRAIL_MAX
    rw [hT] at hlt h ⊢
    omega
  · rw [if_neg hlt]
    refine ⟨?_, rfl⟩
    show p.trailLen + 1 = min (p.trailLen + 1) TRAIL_MAX
    rw [hT] at hlt h ⊢
    omega

lemma applyTrailFold_counters (trail : List ℤ) :
    ∀ (l : List ℕ) (p : Player), p.trailLen ≤ TRAIL_MAX →
      (l.foldl (applyTrailStep trail) p).trailLen = min (p.trailLen + l.length) TRAIL_MAX ∧
      (l.foldl (applyTrailStep trail) p).trailSentCount = p.trailSentCount := by
  intro l
  induction l with
  | nil =>
    intro p h
    have hT : TRAIL_MAX = 600 := rfl
    constructor
    · show p.trailLen = min (p.trailLen + 0) TRAIL_MAX
      rw [hT] at h ⊢
      omega
    · rfl
  | cons a l ih =>
    intro p h
    obtain ⟨h1, h2⟩ := applyTrailStep_counters trail p a h
    have hle : (applyTrailStep trail p a).trailLen ≤ TRAIL_MAX := by
      rw [h1]; exact min_le_right _ _
    obtain ⟨ih1, ih2⟩ := ih (applyTrailStep trail p a) hle
    have hT : TRAIL_MAX = 600 := rfl
    refine ⟨?_, ?_⟩
    · show (List.foldl (applyTrailStep trail) (applyTrailStep trail p a) l).trailLen =
        min (p.trailLen + (l.length + 1)) TRAIL_MAX
      rw [ih1, h1]
      rw [hT]
      omega
    · show (List.foldl (applyTrailStep trail) (applyTrailStep trail p a) l).trailSentCount =
        p.trailSentCount
      rw [ih2, h2]

lemma applyTrailLoop_counters (p : Player) (trail : List ℤ) (h : p.trailLen ≤ TRAIL_MAX) :
    (applyTrailLoop p trail).trailLen = min (p.trailLen + trail.length / 2) TRAIL_MAX ∧
    (applyTrailLoop p trail).trailSentCount = p.trailSentCount := by
  unfold applyTrailLoop
  have := applyTrailFold_counters trail (List.range (trail.length / 2)) p h
  simpa using this

lemma createPlayer_trailBounds (id : String) (index : ℕ) (name : Option String) :
    TrailBoundsInv (createPlayer id index name) := by
  constructor <;> simp [createPlayer, TRAIL_MAX]

lemma applySnapScalars_counters (p2 : Player) (ps : PlayerSnap) :
    (applySnapScalars p2 ps).trailLen = p2.trailLen ∧
    (applySnapScalars p2 ps).trailSentCount = p2.trailSentCount := by
  unfold applySnapScalars
  cases ps.n with
  | none =>
    cases ps.c with
    | none => exact ⟨rfl, rfl⟩
    | some s => by_cases hs : s = "" <;> simp [hs]
  | some s =>
    by_cases hs : s = "" <;>
      cases ps.c with
      | none => simp [hs]
      | some c => by_cases hc : c = "" <;> simp [hs, hc]

lemma startRoundAux_counters (piv : ℚ) :
    ∀ (l : List Player) (k : ℕ) (q : Player), q ∈ startRoundAux piv l k →
      q.trailSentCount = 0 ∧ q.trailLen = 0 := by
  intro l
  induction l with
  | nil => intro k q hq; simp [startRoundAux] at hq
  | cons p rest ih =>
    intro k q hq
    by_cases hl : p.lives ≤ 0
    · simp only [startRoundAux, if_pos hl, List.mem_cons] at hq
      rcases hq with hq | hq
      · subst hq; exact ⟨rfl, rfl⟩
      · exact ih k q hq
    · simp only [startRoundAux, if_neg hl, List.mem_cons] at hq
      rcases hq with hq | hq
      · subst hq; exact ⟨rfl, rfl⟩
      · exact ih (k + 1) q hq

/-- C7 (amended): `trailPush`, `startRound`'s reset and
`serializeGameState`'s advance of `trailSentCount` preserve
`0 ≤ trailSentCount ≤ trailLen ≤ TRAIL_MAX` unconditionally; the delta
application of `applyGameState` preserves it provided the snapshot's
`tc` watermark does not exceed the trail length the mirror ends up with
(or the snapshot carries no delta samples). -/
theorem trail_invariant_spec :
    (∀ (p : Player) (x y : ℚ), TrailBoundsInv p → TrailBoundsInv (trailPush p x y)) ∧
    (∀ (piv : ℚ) (l : List Player) (q : Player), q ∈ startRound piv l → TrailBoundsInv q) ∧
    (∀ (p : Player) (b : Bool), TrailBoundsInv p → TrailBoundsInv (serializePlayer p b).2) ∧
    (∀ (pOpt : Option Player) (id : String) (ps : PlayerSnap),
      (∀ q, pOpt = some q → TrailBoundsInv q) →
      (ps.tc ≤ (applyPlayerSnap pOpt id ps).trailLen ∨ (ps.tr.getD []).length = 0) →
      TrailBoundsInv (applyPlayerSnap pOpt id ps)) := by
  have hT : TRAIL_MAX = 600 := rfl
  refine ⟨?_, ?_, ?_, ?_⟩
  · intro p x y ⟨h1, h2⟩
    unfold trailPush
    by_cases hlt : p.trailLen < TRAIL_MAX
    · rw [if_pos hlt]
      constructor
      · show p.trailSentCount ≤ p.trailLen + 1
        omega
      · show p.trailLen + 1 ≤ TRAIL_MAX
        rw [hT] at hlt ⊢
        omega
    · rw [if_neg hlt]
      constructor
      · show p.trailSentCount - 1 ≤ p.trailLen
        omega
      · exact h2
  · intro piv l q hq
    obtain ⟨h1, h2⟩ := startRoundAux_counters piv l 0 q hq
    constructor
    · rw [h1]; omega
    · rw [h2]; omega
  · intro p b ⟨h1, h2⟩
    exact ⟨le_rfl, h2⟩
  · intro pOpt id ps hInv hside
    have hp0 : TrailBoundsInv (applySnapBase pOpt id ps) := by
      cases pOpt with
      | some q => exact hInv q rfl
      | none => exact createPlayer_trailBounds id (ps.si.getD 0) ps.n
    obtain ⟨hsc, hlenp⟩ := applySnapScalars_counters
      (if ps.tl = 0 then
        { applySnapTrail (applySnapBase pOpt id ps) ps with
          trailLen := 0, trailStart := 0, trailSentCount := 0 }
       else applySnapTrail (applySnapBase pOpt id ps) ps) ps
    show TrailBoundsInv (applySnapScalars _ ps)
    unfold TrailBoundsInv
    rw [hsc, hlenp]
    by_cases htl : ps.tl = 0
    · rw [if_pos htl]
      constructor
      · show (0 : ℕ) ≤ 0
        exact le_rfl
      · show (0 : ℕ) ≤ TRAIL_MAX
        omega
    · rw [if_neg htl]
      -- reduce the side condition to the same stage
      have hlen_eq : (applyPlayerSnap pOpt id ps).trailLen =
          (applySnapTrail (applySnapBase pOpt id ps) ps).trailLen := by
        unfold applyPlayerSnap
        rw [(applySnapScalars_counters _ ps).1, if_neg htl]
      cases htr : ps.tr with
      | none =>
        have h0 := hp0
        simp only [applySnapTrail, htr]
        exact h0
      | some trail =>
        by_cases h0len : 0 < trail.length
        · have hlt : (applySnapTrail (applySnapBase pOpt id ps) ps).trailLen ≤ TRAIL_MAX := by
            simp only [applySnapTrail, htr]
            rw [if_pos h0len]
            show (applyTrailLoop (applySnapBase pOpt id ps) trail).trailLen ≤ TRAIL_MAX
            rw [(applyTrailLoop_counters _ trail hp0.2).1]
            exact min_le_right _ _
          have hsent : (applySnapTrail (applySnapBase pOpt id ps) ps).trailSentCount = ps.tc := by
            simp only [applySnapTrail, htr]
            rw [if_pos h0len]
          rcases hside with hside | hside
          · rw [hlen_eq] at hside
            rw [hsent]
            exact ⟨hside, hlt⟩
          · rw [htr] at hside
            simp only [Option.getD_some] at hside
            omega
        · have heq : applySnapTrail (applySnapBase pOpt id ps) ps =
              applySnapBase pOpt id ps := by
            simp only [applySnapTrail, htr]
            rw [if_neg h0len]
          rw [heq]
          exact hp0

/-- An authoritative player mid-round: 5 trail samples, 3 already sent. -/
def pSentThree : Player :=
  { createPlayer "a" 0 none with
    trailLen := 5, trailSentCount := 3,
    trailX := fun _ => 100, trailY := fun _ => 100 }

/-- The mirror a fresh client builds from one broadcast of `pSentThree`. -/
def mirrorOfSentThree : Player :=
  ((applyGameState [] (serializeGameState [("a", pSentThree)] true 0 none none true 0).1).lookup
    "a").getD (createPlayer "z" 0 none)

/-- C7 counterexample: the delta application of `applyGameState` on a fresh
mirror receives only the 2 unsent samples but takes over the authoritative
`tc = 5`, leaving `trailSentCount = 5 > trailLen = 2`; the invariant
`sentCount ≤ length` is not preserved by this operation. -/
theorem trail_invariant_counterexample :
    TrailBoundsInv pSentThree ∧
    mirrorOfSentThree.trailLen = 2 ∧
    mirrorOfSentThree.trailSentCount = 5 ∧
    ¬ TrailBoundsInv mirrorOfSentThree := by
  refine ⟨⟨by decide, by decide⟩, ?_, ?_, ?_⟩
  · decide
  · decide
  · intro ⟨h1, h2⟩
    revert h1
    decide

theorem trail_invariant_spec_witness :
    TrailBoundsInv (trailPush pSentThree 7 8) :=
  trail_invariant_spec.1 pSentThree 7 8 ⟨by decide, by decide⟩

lemma applySnapScalars_x (p2 : Player) (ps : PlayerSnap) :
    (applySnapScalars p2 ps).x = (ps.x : ℚ) / 10 := by
  unfold applySnapScalars
  cases ps.n with
  | none =>
    cases ps.c with
    | none => rfl
    | some s => by_cases hs : s = "" <;> simp [hs]
  | some s =>
    by_cases hs : s = "" <;>
      cases ps.c with
      | none => simp [hs]
      | some c => by_cases hc : c = "" <;> simp [hs, hc]

lemma applySnapScalars_y (p2 : Player) (ps : PlayerSnap) :
    (applySnapScalars p2 ps).y = (ps.y : ℚ) / 10 := by
  unfold applySnapScalars
  cases ps.n with
  | none =>
    cases ps.c with
    | none => rfl
    | some s => by_cases hs : s = "" <;> simp [hs]
  | some s =>
    by_cases hs : s = "" <;>
      cases ps.c with
      | none => simp [hs]
      | some c => by_cases hc : c = "" <;> simp [hs, hc]

lemma applySnapScalars_angle (p2 : Player) (ps : PlayerSnap) :
    (applySnapScalars p2 ps).angle = (ps.a : ℚ) / 1000 := by
  unfold applySnapScalars
  cases ps.n with
  | none =>
    cases ps.c with
    | none => rfl
    | some s => by_cases hs : s = "" <;> simp [hs]
  | some s =>
    by_cases hs : s = "" <;>
      cases ps.c with
      | none => simp [hs]
      | some c => by_cases hc : c = "" <;> simp [hs, hc]

lemma applyPlayerSnap_x (pOpt : Option Player) (id : String) (ps : PlayerSnap) :
    (applyPlayerSnap pOpt id ps).x = (ps.x : ℚ) / 10 := by
  unfold applyPlayerSnap
  exact applySnapScalars_x _ ps

lemma applyPlayerSnap_y (pOpt : Option Player) (id : String) (ps : PlayerSnap) :
    (applyPlayerSnap pOpt id ps).y = (ps.y : ℚ) / 10 := by
  unfold applyPlayerSnap
  exact applySnapScalars_y _ ps

lemma applyPlayerSnap_angle (pOpt : Option Player) (id : String) (ps : PlayerSnap) :
    (applyPlayerSnap pOpt id ps).angle = (ps.a : ℚ) / 1000 := by
  unfold applyPlayerSnap
  exact applySnapScalars_angle _ ps

lemma flatMap_pair_length (l : List ℕ) (f g : ℕ → ℤ) :
    (l.flatMap fun i => [f i, g i]).length = 2 * l.length := by
  induction l with
  | nil => rfl
  | cons a t ih =>
    simp only [List.flatMap_cons, List.length_append, List.length_cons, List.length_nil, ih]
    omega

lemma enc10_decode_bound (v : ℚ) (h : 0 ≤ v) : |((enc10 v : ℚ)) / 10 - v| ≤ 1/20 := by
  unfold enc10
  have h05 : (0:ℚ) ≤ v * 10 + 0.5 := by linarith
  rw [jsTrunc_of_nonneg h05]
  have h1 : ((⌊v * 10 + 0.5⌋ : ℚ)) ≤ v * 10 + 0.5 := Int.floor_le _
  have h2 : v * 10 + 0.5 < (⌊v * 10 + 0.5⌋ : ℚ) + 1 := Int.lt_floor_add_one _
  rw [abs_le]
  constructor <;> linarith

lemma enc1000_decode_bound (v : ℚ) (h : 0 ≤ v) : |((enc1000 v : ℚ)) / 1000 - v| ≤ 1/2000 := by
  unfold enc1000
  have h05 : (0:ℚ) ≤ v * 1000 + 0.5 := by linarith
  rw [jsTrunc_of_nonneg h05]
  have h1 : ((⌊v * 1000 + 0.5⌋ : ℚ)) ≤ v * 1000 + 0.5 := Int.floor_le _
  have h2 : v * 1000 + 0.5 < (⌊v * 1000 + 0.5⌋ : ℚ) + 1 := Int.lt_floor_add_one _
  rw [abs_le]
  constructor <;> linarith

lemma applyGameState_single (k : String) (s : PlayerSnap) (ra : Bool) (cd : ℤ)
    (rst : Option ℤ) (mw : Option String) (t : ℤ) :
    (applyGameState [] { p := [(k, s)], ra := ra, cd := cd, rst := rst, mw := mw, t := t }).lookup
      k = some (applyPlayerSnap none k s) := by
  simp [applyGameState, setPlayer, List.lookup]

/-- C4 (amended): for an authoritative player with nonnegative position and
heading and a fully unsent trail, one `serializeGameState` broadcast applied
by `applyGameState` to a fresh mirror reproduces the position within 0.05
units per axis and the heading within 0.0005 rad, and the mirror's trail
sample count equals the authoritative trail length exactly.  (For negative
coordinates or heading - reachable just before a wall death - the `|0`
encoding truncates toward zero instead of rounding, and the error can reach
0.15 units / 0.0015 rad; see the counterexample.) -/
theorem codec_roundtrip_spec (p : Player) (ra : Bool) (cd : ℤ)
    (rst : Option ℤ) (mw : Option String) (now : ℤ)
    (hx : 0 ≤ p.x) (hy : 0 ≤ p.y) (ha : 0 ≤ p.angle)
    (hsent : p.trailSentCount = 0) (hlen : p.trailLen ≤ TRAIL_MAX) :
    ∀ m, (applyGameState [] (serializeGameState [(p.id, p)] ra cd rst mw true now).1).lookup p.id
        = some m →
      |m.x - p.x| ≤ 1/20 ∧ |m.y - p.y| ≤ 1/20 ∧ |m.angle - p.angle| ≤ 1/2000 ∧
      m.trailLen = p.trailLen := by
  intro m hm
  have hT : TRAIL_MAX = 600 := rfl
  rw [show (serializeGameState [(p.id, p)] ra cd rst mw true now).1 =
      { p := [(p.id, (serializePlayer p true).1)], ra := ra, cd := cd, rst := rst,
        mw := mw, t := now } from rfl, applyGameState_single] at hm
  have hm2 : applyPlayerSnap none p.id (serializePlayer p true).1 = m := by
    injection hm
  rw [← hm2]
  refine ⟨?_, ?_, ?_, ?_⟩
  · rw [applyPlayerSnap_x]
    exact enc10_decode_bound p.x hx
  · rw [applyPlayerSnap_y]
    exact enc10_decode_bound p.y hy
  · rw [applyPlayerSnap_angle]
    exact enc1000_decode_bound p.angle ha
  · unfold applyPlayerSnap
    rw [(applySnapScalars_counters _ _).1]
    have hbase : (applySnapBase none p.id (serializePlayer p true).1).trailLen = 0 := rfl
    by_cases hp0 : p.trailLen = 0
    · have htl : (serializePlayer p true).1.tl = 0 := by
        show p.trailLen = 0
        exact hp0
      rw [if_pos htl]
      show (0 : ℕ) = p.trailLen
      omega
    · have htl : ¬ (serializePlayer p true).1.tl = 0 := by
        show ¬ p.trailLen = 0
        exact hp0
      rw [if_neg htl]
      have htr2 : (serializePlayer p true).1.tr =
          some ((List.range (p.trailLen - p.trailSentCount)).flatMap fun i =>
            [enc10 (p.trailX ((p.trailStart + (p.trailSentCount + i)) % TRAIL_MAX)),
             enc10 (p.trailY ((p.trailStart + (p.trailSentCount + i)) % TRAIL_MAX))]) := by
        show (if 0 < p.trailLen - p.trailSentCount then _ else none) = _
        rw [if_pos (by omega : 0 < p.trailLen - p.trailSentCount)]
      simp only [applySnapTrail, htr2]
      have hTRlen : ((List.range (p.trailLen - p.trailSentCount)).flatMap fun i =>
          [enc10 (p.trailX ((p.trailStart + (p.trailSentCount + i)) % TRAIL_MAX)),
           enc10 (p.trailY ((p.trailStart + (p.trailSentCount + i)) % TRAIL_MAX))]).length =
          2 * (p.trailLen - p.trailSentCount) := by
        rw [flatMap_pair_length]
        simp [List.length_range]
      rw [if_pos (by rw [hTRlen]; omega)]
      show (applyTrailLoop (applySnapBase none p.id (serializePlayer p true).1) _).trailLen =
        p.trailLen
      rw [(applyTrailLoop_counters _ _ (by rw [hbase]; omega)).1, hTRlen, hbase]
      rw [hT] at hlen ⊢
      omega

theorem codec_roundtrip_spec_witness :
    |((applyPlayerSnap none "w" (serializePlayer (createPlayer "w" 1 none) true).1).x -
        (createPlayer "w" 1 none).x)| ≤ 1/20 ∧
    (applyPlayerSnap none "w" (serializePlayer (createPlayer "w" 1 none) true).1).trailLen =
      (createPlayer "w" 1 none).trailLen := by
  have h := codec_roundtrip_spec (createPlayer "w" 1 none) false 0 none none 0
    (by norm_num [createPlayer, CANVAS_W]) (by norm_num [createPlayer, CANVAS_H])
    (by norm_num [createPlayer]) rfl (by decide)
    (applyPlayerSnap none "w" (serializePlayer (createPlayer "w" 1 none) true).1)
    (applyGameState_single "w" (serializePlayer (createPlayer "w" 1 none) true).1 false 0
      none none 0)
  exact ⟨h.1, h.2.2.2⟩

/-- Authoritative player state with a negative coordinate, as reachable on
the tick just before a wall death on the left edge. -/
def pNegX : Player := { createPlayer "a" 0 none with x := -1 }

/-- The mirror a fresh client builds from one broadcast of `pNegX`. -/
def mirrorOfNegX : Player :=
  ((applyGameState [] (serializeGameState [("a", pNegX)] true 0 none none true 0).1).lookup
    "a").getD (createPlayer "z" 0 none)

/-- C4 counterexample: at the reachable authoritative state `x = -1` the
fixed-point round trip returns `-0.9`, an error of `0.1 > 0.05`, because
`(v * 10 + 0.5) | 0` truncates toward zero for negative values instead of
rounding. -/
theorem codec_roundtrip_counterexample :
    pNegX.x = -1 ∧ mirrorOfNegX.x = -9/10 ∧ ¬ |mirrorOfNegX.x - pNegX.x| ≤ 1/20 := by
  have hmx : mirrorOfNegX.x = -9/10 := by
    have h1 : mirrorOfNegX = applyPlayerSnap none "a" (serializePlayer pNegX true).1 := by
      unfold mirrorOfNegX
      rw [show (serializeGameState [("a", pNegX)] true 0 none none true 0).1 =
          { p := [("a", (serializePlayer pNegX true).1)], ra := true, cd := 0, rst := none,
            mw := none, t := 0 } from rfl, applyGameState_single]
      rfl
    rw [h1, applyPlayerSnap_x]
    have h2 : (serializePlayer pNegX true).1.x = enc10 pNegX.x := rfl
    rw [h2]
    have h3 : enc10 pNegX.x = -9 := by
      show jsTrunc (pNegX.x * 10 + 0.5) = -9
      have h4 : pNegX.x = -1 := rfl
      rw [h4]
      norm_num [jsTrunc]
    rw [h3]
    norm_num
  refine ⟨rfl, hmx, ?_⟩
  rw [hmx, show pNegX.x = -1 from rfl]
  rw [show (-9/10 : ℚ) - (-1) = 1/10 by norm_num, abs_of_pos (by norm_num : (0:ℚ) < 1/10)]
  norm_num

lemma roundEndCheck_spec (g : Host) (hcnt : countAlive g.players ≤ 1) :
    (roundEndCheck g).roundActive = false ∧
    (roundEndCheck g).physicsRunning = false ∧
    (roundEndCheck g).gameStarted = g.gameStarted ∧
    ((withLives g.players).length = 0 →
      (roundEndCheck g).matchWinner = g.matchWinner ∧
      (roundEndCheck g).pendingRestartMs = g.pendingRestartMs) ∧
    (∀ w, withLives g.players = [w] →
      (roundEndCheck g).matchWinner = some w.id ∧
      (roundEndCheck g).pendingRestartMs = g.pendingRestartMs) ∧
    (1 < (withLives g.players).length →
      (roundEndCheck g).pendingRestartMs = some 3000 ∧
      (roundEndCheck g).matchWinner = g.matchWinner) := by
  unfold roundEndCheck
  rw [if_pos hcnt]
  by_cases h1 : (withLives g.players).length ≤ 1
  · rw [if_pos h1]
    by_cases h2 : (withLives g.players).length = 1
    · rw [if_pos h2]
      refine ⟨rfl, rfl, rfl, ?_, ?_, ?_⟩
      · intro h0; omega
      · intro w hw
        rw [hw]
        exact ⟨rfl, rfl⟩
      · intro hgt; omega
    · rw [if_neg h2]
      refine ⟨rfl, rfl, rfl, ?_, ?_, ?_⟩
      · intro h0; exact ⟨rfl, rfl⟩
      · intro w hw; rw [hw] at h2; simp at h2
      · intro hgt; omega
  · rw [if_neg h1]
    refine ⟨rfl, rfl, rfl, ?_, ?_, ?_⟩
    · intro h0; omega
    · intro w hw; rw [hw] at h1; simp at h1
    · intro hgt; exact ⟨rfl, rfl⟩

/-- C2: in a host physics tick during an active round, if at most one
competitor is still alive after movement and collision detection, the round
is deactivated and the physics clock stopped; then with at most one
competitor retaining lives the match ends (`matchWinner` is that
competitor's id when exactly one remains, and stays unchanged - null in
reachable states - when zero remain); with more than one retaining lives an
auto-restart is scheduled with the fixed 3000 ms delay, whose firing sets
`countdown = 3` and re-enters the countdown phase. -/
theorem physicsTick_roundEnd_spec (cosF sinF : ℚ → ℚ) (h : Host) (now : ℤ)
    (hra : h.roundActive = true) :
    ∀ h2, physicsTick cosF sinF h now = h2 →
      countAlive h2.players ≤ 1 →
      h2.roundActive = false ∧ h2.physicsRunning = false ∧
      ((withLives h2.players).length = 0 →
        h2.matchWinner = h.matchWinner ∧ h2.pendingRestartMs = h.pendingRestartMs) ∧
      (∀ w, withLives h2.players = [w] →
        h2.matchWinner = some w.id ∧ h2.pendingRestartMs = h.pendingRestartMs) ∧
      (1 < (withLives h2.players).length →
        h2.pendingRestartMs = some 3000 ∧ h2.matchWinner = h.matchWinner ∧
        (h.gameStarted = true →
          (autoRestartFire h2).countdown = 3 ∧ (autoRestartFire h2).countdownRunning = true)) := by
  intro h2 heq hcnt
  have hphys : physicsTick cosF sinF h now = roundEndCheck (tickCore cosF sinF h now) := by
    unfold physicsTick
    rw [hra]
    simp only [Bool.true_eq_false, if_false]
  have hplayers : h2.players = (tickCore cosF sinF h now).players := by
    rw [← heq, hphys, roundEndCheck_players]
  have hcnt2 : countAlive (tickCore cosF sinF h now).players ≤ 1 := by
    rw [← hplayers]; exact hcnt
  have hre := roundEndCheck_spec (tickCore cosF sinF h now) hcnt2
  have hcore_mw : (tickCore cosF sinF h now).matchWinner = h.matchWinner := rfl
  have hcore_pr : (tickCore cosF sinF h now).pendingRestartMs = h.pendingRestartMs := rfl
  have hcore_gs : (tickCore cosF sinF h now).gameStarted = h.gameStarted := rfl
  rw [← heq, hphys]
  refine ⟨hre.1, hre.2.1, ?_, ?_, ?_⟩
  · intro h0
    rw [roundEndCheck_players] at h0
    obtain ⟨hmw, hpr⟩ := hre.2.2.2.1 h0
    rw [hmw, hpr, hcore_mw, hcore_pr]
    exact ⟨rfl, rfl⟩
  · intro w hw
    rw [roundEndCheck_players] at hw
    obtain ⟨hmw, hpr⟩ := hre.2.2.2.2.1 w hw
    rw [hmw, hpr, hcore_pr]
    exact ⟨rfl, rfl⟩
  · intro hgt
    rw [roundEndCheck_players] at hgt
    obtain ⟨hpr, hmw⟩ := hre.2.2.2.2.2 hgt
    refine ⟨hpr, by rw [hmw, hcore_mw], ?_⟩
    intro hgs
    have hgs2 : (roundEndCheck (tickCore cosF sinF h now)).gameStarted = true := by
      rw [hre.2.2.1, hcore_gs, hgs]
    unfold autoRestartFire
    rw [hgs2]
    exact ⟨rfl, rfl⟩

/-- A host with an active round, no players and a clean initialized grid. -/
def hostRoundActive : Host :=
  { hostIdle with
    roundActive := true
    grid := { initialized := true, occupied := [], pts := [], dirty := false } }

theorem physicsTick_roundEnd_spec_witness :
    (physicsTick (fun _ => 0) (fun _ => 0) hostRoundActive 0).roundActive = false ∧
    (physicsTick (fun _ => 0) (fun _ => 0) hostRoundActive 0).physicsRunning = false := by
  have H := physicsTick_roundEnd_spec (fun _ => 0) (fun _ => 0) hostRoundActive 0 rfl
    (physicsTick (fun _ => 0) (fun _ => 0) hostRoundActive 0) rfl (by decide)
  exact ⟨H.1, H.2.1⟩

/-- Well-formedness of a grid state: every pooled point's cell is marked
occupied in the bitfield (true of any grid built by `rebuildSpatialGrid`
and maintained by `gridInsertPoint`). -/
def GridEnv.WF (env : GridEnv) : Prop :=
  ∀ pt ∈ env.pts, env.occupied.contains (getCellIndex pt.x pt.y) = true

/-- C1 (amended): on a well-formed grid, `hitCheck` fires exactly when some
pooled sample lies in a valid cell of the player's 3x3 neighborhood, is
not skipped, and passes the AABB-then-squared-distance test, where the
skip rule is: own samples within the last `COLLISION_SKIP_OWN` logical
positions of the own trail, and foreign samples with recorded logical
position `≥ 598 = TRAIL_MAX - 2` - irrespective of the foreign
competitor's own trail length or alive flag; and `checkCollisions` marks
exactly the alive players whose scan fires as not-alive. -/
theorem checkCollisions_skip_spec (env : GridEnv) (myIndex : ℕ) (p : Player)
    (hwf : GridEnv.WF env) :
    (hitCheck env myIndex p = true ↔
      ∃ pt ∈ env.pts, ∃ dr ∈ ([-1, 0, 1] : List ℤ), ∃ dc ∈ ([-1, 0, 1] : List ℤ),
        (0 ≤ jsTrunc (p.y / GRID_CELL_SIZE) + dr ∧
         jsTrunc (p.y / GRID_CELL_SIZE) + dr < GRID_ROWS ∧
         0 ≤ jsTrunc (p.x / GRID_CELL_SIZE) + dc ∧
         jsTrunc (p.x / GRID_CELL_SIZE) + dc < GRID_COLS) ∧
        getCellIndex pt.x pt.y =
          (jsTrunc (p.y / GRID_CELL_SIZE) + dr) * GRID_COLS +
            (jsTrunc (p.x / GRID_CELL_SIZE) + dc) ∧
        (if pt.playerIdx = myIndex then ¬ p.trailLen ≤ pt.trailPos + COLLISION_SKIP_OWN
         else ¬ 598 ≤ pt.trailPos) ∧
        distTest p.x p.y pt.x pt.y = true) ∧
    (∀ (players : List Player), env.dirty = false → env.initialized = true →
      ∀ (i : ℕ) (q : Player), players[i]? = some q →
        (checkCollisions env players)[i]? =
          some (if q.alive && hitCheck env (i + 1) q then { q with alive := false } else q)) := by
  constructor
  · constructor
    · intro hh
      unfold hitCheck at hh
      rw [List.any_eq_true] at hh
      obtain ⟨dr, hdr, hh⟩ := hh
      rw [List.any_eq_true] at hh
      obtain ⟨dc, hdc, hh⟩ := hh
      by_cases hb : jsTrunc (p.y / GRID_CELL_SIZE) + dr < 0 ∨
          GRID_ROWS ≤ jsTrunc (p.y / GRID_CELL_SIZE) + dr ∨
          jsTrunc (p.x / GRID_CELL_SIZE) + dc < 0 ∨
          GRID_COLS ≤ jsTrunc (p.x / GRID_CELL_SIZE) + dc
      · rw [if_pos hb] at hh
        exact absurd hh (by simp)
      · rw [if_neg hb] at hh
        push_neg at hb
        obtain ⟨hb1, hb2, hb3, hb4⟩ := hb
        by_cases hcont : env.occupied.contains
            ((jsTrunc (p.y / GRID_CELL_SIZE) + dr) * GRID_COLS +
              (jsTrunc (p.x / GRID_CELL_SIZE) + dc)) = true
        · rw [if_pos hcont] at hh
          rw [List.any_eq_true] at hh
          obtain ⟨pt, hmem, hf⟩ := hh
          by_cases hc : getCellIndex pt.x pt.y ≠
              (jsTrunc (p.y / GRID_CELL_SIZE) + dr) * GRID_COLS +
                (jsTrunc (p.x / GRID_CELL_SIZE) + dc)
          · rw [if_pos hc] at hf
            exact absurd hf (by simp)
          · rw [if_neg hc] at hf
            push_neg at hc
            refine ⟨pt, hmem, dr, hdr, dc, hdc,
              ⟨by omega, by omega, by omega, by omega⟩, hc, ?_⟩
            by_cases hself : pt.playerIdx = myIndex
            · rw [if_pos hself] at hf ⊢
              by_cases hgrace : p.trailLen ≤ pt.trailPos + COLLISION_SKIP_OWN
              · rw [if_pos hgrace] at hf
                exact absurd hf (by simp)
              · rw [if_neg hgrace] at hf
                exact ⟨hgrace, hf⟩
            · rw [if_neg hself] at hf ⊢
              by_cases hrecent : 598 ≤ pt.trailPos
              · rw [if_pos hrecent] at hf
                exact absurd hf (by simp)
              · rw [if_neg hrecent] at hf
                exact ⟨hrecent, hf⟩
        · rw [if_neg hcont] at hh
          exact absurd hh (by simp)
    · rintro ⟨pt, hmem, dr, hdr, dc, hdc, ⟨hb1, hb2, hb3, hb4⟩, hcell, hskip, hdist⟩
      unfold hitCheck
      rw [List.any_eq_true]
      refine ⟨dr, hdr, ?_⟩
      rw [List.any_eq_true]
      refine ⟨dc, hdc, ?_⟩
      rw [if_neg (by omega :
        ¬ (jsTrunc (p.y / GRID_CELL_SIZE) + dr < 0 ∨
           GRID_ROWS ≤ jsTrunc (p.y / GRID_CELL_SIZE) + dr ∨
           jsTrunc (p.x / GRID_CELL_SIZE) + dc < 0 ∨
           GRID_COLS ≤ jsTrunc (p.x / GRID_CELL_SIZE) + dc))]
      have hcont : env.occupied.contains
          ((jsTrunc (p.y / GRID_CELL_SIZE) + dr) * GRID_COLS +
            (jsTrunc (p.x / GRID_CELL_SIZE) + dc)) = true := by
        rw [← hcell]
        exact hwf pt hmem
      rw [if_pos hcont]
      rw [List.any_eq_true]
      refine ⟨pt, hmem, ?_⟩
      rw [if_neg (by simp [hcell] : ¬ getCellIndex pt.x pt.y ≠
        (jsTrunc (p.y / GRID_CELL_SIZE) + dr) * GRID_COLS +
          (jsTrunc (p.x / GRID_CELL_SIZE) + dc))]
      by_cases hself : pt.playerIdx = myIndex
      · rw [if_pos hself]
        rw [if_pos hself] at hskip
        rw [if_neg hskip]
        exact hdist
      · rw [if_neg hself]
        rw [if_neg hself] at hskip
        rw [if_neg hskip]
        exact hdist
  · intro players hdirty hinit i q hq
    unfold checkCollisions checkCollisionsEnv
    rw [hdirty, hinit]
    simp only [Bool.true_eq_false, or_false, if_false]
    rw [checkCollisionsAux_getElem?, hq]
    simp [Bool.false_eq_true]

/-- Competitor A of the C1 scenario: alive at (100, 100) with one own trail
sample at its own position. -/
def pC1A : Player :=
  { createPlayer "a" 0 none with
    x := 100
    y := 100
    trailLen := 1
    trailX := fun _ => 100
    trailY := fun _ => 100 }

/-- Competitor B of the C1 scenario: alive at (500, 500); its single trail
sample (logical position 0, the last sample of its 1-sample trail) lies at
(101, 100), within collision radius of A. -/
def pC1B : Player :=
  { createPlayer "b" 1 none with
    x := 500
    y := 500
    trailLen := 1
    trailX := fun _ => 101
    trailY := fun _ => 100 }

/-- The C1 scenario players, in host iteration order. -/
def psC1 : List Player := [pC1A, pC1B]

/-- The freshly rebuilt grid of the C1 scenario. -/
def envC1 : GridEnv := rebuildSpatialGrid psC1

lemma cellIdx_100_100 : getCellIndex 100 100 = 534 := by
  norm_num [getCellIndex, jsTrunc, GRID_CELL_SIZE, GRID_COLS, GRID_ROWS]

lemma cellIdx_101_100 : getCellIndex 101 100 = 534 := by
  norm_num [getCellIndex, jsTrunc, GRID_CELL_SIZE, GRID_COLS, GRID_ROWS]

lemma envC1_eq : envC1 =
    { initialized := true, occupied := [534, 534],
      pts := [⟨100, 100, 1, 0⟩, ⟨101, 100, 2, 0⟩], dirty := false } := by
  unfold envC1 rebuildSpatialGrid psC1
  simp only [rebuildSpatialGridAux]
  rw [if_pos (show pC1A.alive = true from rfl), if_pos (show pC1B.alive = true from rfl)]
  unfold rebuildInsertPlayer
  rw [show pC1A.trailLen = 1 from rfl, show pC1B.trailLen = 1 from rfl]
  rw [show List.range 1 = [0] from rfl]
  simp only [List.foldl_cons, List.foldl_nil, trailGetIndex]
  rw [show pC1A.trailStart = 0 from rfl, show pC1B.trailStart = 0 from rfl]
  norm_num [pC1A, pC1B, createPlayer, cellIdx_100_100, cellIdx_101_100,
    MAX_GRID_ENTRIES, TRAIL_MAX]
lemma envC1_wf : GridEnv.WF envC1 := by
  rw [envC1_eq]
  intro pt hpt
  simp only [List.mem_cons, List.not_mem_nil, or_false] at hpt
  rcases hpt with rfl | rfl
  · rw [show getCellIndex (100:ℚ) 100 = 534 from cellIdx_100_100]
    decide
  · rw [show getCellIndex (101:ℚ) 100 = 534 from cellIdx_101_100]
    decide

lemma jsTrunc_100_16 : jsTrunc ((100:ℚ) / GRID_CELL_SIZE) = 6 := by
  norm_num [jsTrunc, GRID_CELL_SIZE]

lemma jsTrunc_500_16 : jsTrunc ((500:ℚ) / GRID_CELL_SIZE) = 31 := by
  norm_num [jsTrunc, GRID_CELL_SIZE]

lemma hitCheck_envC1_A : hitCheck envC1 1 pC1A = true := by
  refine ((checkCollisions_skip_spec envC1 1 pC1A envC1_wf).1).mpr
    ⟨⟨101, 100, 2, 0⟩, ?_, 0, by simp, 0, by simp, ?_, ?_, ?_, ?_⟩
  · rw [envC1_eq]
    simp
  · rw [show pC1A.y = (100:ℚ) from rfl, show pC1A.x = (100:ℚ) from rfl, jsTrunc_100_16]
    norm_num [GRID_ROWS, GRID_COLS]
  · rw [show pC1A.y = (100:ℚ) from rfl, show pC1A.x = (100:ℚ) from rfl, jsTrunc_100_16]
    rw [show getCellIndex (101:ℚ) 100 = 534 from cellIdx_101_100]
    norm_num [GRID_COLS]
  · rw [if_neg (by decide : ¬ (2 = 1))]
    decide
  · show distTest 100 100 101 100 = true
    norm_num [distTest, COLLISION_RADIUS, COLLISION_RADIUS_SQ]

lemma hitCheck_envC1_B : hitCheck envC1 2 pC1B = false := by
  rw [Bool.eq_false_iff]
  intro htrue
  obtain ⟨pt, hmem, dr, hdr, dc, hdc, hbounds, hcell, hskip, hdist⟩ :=
    ((checkCollisions_skip_spec envC1 2 pC1B envC1_wf).1).mp htrue
  rw [envC1_eq] at hmem
  simp only [List.mem_cons, List.not_mem_nil, or_false] at hmem
  have hdr3 : dr = -1 ∨ dr = 0 ∨ dr = 1 := by simpa using hdr
  have hdc3 : dc = -1 ∨ dc = 0 ∨ dc = 1 := by simpa using hdc
  have hcell534 : getCellIndex pt.x pt.y = 534 := by
    rcases hmem with rfl | rfl
    · exact cellIdx_100_100
    · exact cellIdx_101_100
  rw [hcell534, show pC1B.y = (500:ℚ) from rfl, show pC1B.x = (500:ℚ) from rfl,
    jsTrunc_500_16] at hcell
  rcases hdr3 with rfl | rfl | rfl <;> rcases hdc3 with rfl | rfl | rfl <;>
    norm_num [GRID_COLS] at hcell

set_option maxHeartbeats 1000000 in
lemma hitCheckSpec_envC1_A : hitCheckSpec envC1 psC1 1 pC1A = false := by
  rw [Bool.eq_false_iff]
  intro htrue
  unfold hitCheckSpec at htrue
  rw [List.any_eq_true] at htrue
  obtain ⟨dr, hdr, htrue⟩ := htrue
  rw [List.any_eq_true] at htrue
  obtain ⟨dc, hdc, htrue⟩ := htrue
  have hdr3 : dr = -1 ∨ dr = 0 ∨ dr = 1 := by simpa using hdr
  have hdc3 : dc = -1 ∨ dc = 0 ∨ dc = 1 := by simpa using hdc
  rw [envC1_eq] at htrue
  rcases hdr3 with rfl | rfl | rfl <;> rcases hdc3 with rfl | rfl | rfl <;>
    norm_num [pC1A, pC1B, psC1, createPlayer, jsTrunc, GRID_CELL_SIZE, GRID_COLS, GRID_ROWS,
      getCellIndex, distTest, COLLISION_RADIUS, COLLISION_RADIUS_SQ, COLLISION_SKIP_OWN,
      List.any_cons, List.any_nil] at htrue

set_option maxHeartbeats 1000000 in
lemma hitCheckSpec_envC1_B : hitCheckSpec envC1 psC1 2 pC1B = false := by
  rw [Bool.eq_false_iff]
  intro htrue
  unfold hitCheckSpec at htrue
  rw [List.any_eq_true] at htrue
  obtain ⟨dr, hdr, htrue⟩ := htrue
  rw [List.any_eq_true] at htrue
  obtain ⟨dc, hdc, htrue⟩ := htrue
  have hdr3 : dr = -1 ∨ dr = 0 ∨ dr = 1 := by simpa using hdr
  have hdc3 : dc = -1 ∨ dc = 0 ∨ dc = 1 := by simpa using hdc
  rw [envC1_eq] at htrue
  rcases hdr3 with rfl | rfl | rfl <;> rcases hdc3 with rfl | rfl | rfl <;>
    norm_num [pC1A, pC1B, psC1, createPlayer, jsTrunc, GRID_CELL_SIZE, GRID_COLS, GRID_ROWS,
      getCellIndex, distTest, COLLISION_RADIUS, COLLISION_RADIUS_SQ, COLLISION_SKIP_OWN,
      List.any_cons, List.any_nil] at htrue

/-- C1 counterexample: in the two-player scenario, competitor B's only trail
sample is within the last 2 samples of B's trail (logical position 0 of a
1-sample trail), so by the claim's skip rule it must be skipped and A
survives - as `checkCollisionsSpec`, built from the claim's words, shows.
The code's `checkCollisions` skips foreign samples only when their recorded
position is ≥ 598, tests the sample, and kills A. -/
theorem checkCollisions_counterexample :
    ((checkCollisions envC1 psC1).map Player.alive) = [false, true] ∧
    ((checkCollisionsSpec envC1 psC1).map Player.alive) = [true, true] := by
  have henv2 : checkCollisionsEnv envC1 psC1 = envC1 := by
    unfold checkCollisionsEnv
    rw [envC1_eq]
    simp
  constructor
  · show ((checkCollisionsAux (checkCollisionsEnv envC1 psC1) psC1 0).map Player.alive) = _
    rw [henv2]
    show ((checkCollisionsAux envC1 [pC1A, pC1B] 0).map Player.alive) = _
    simp only [checkCollisionsAux]
    rw [show (0 + 1 : ℕ) = 1 from rfl, show (0 + 1 + 1 : ℕ) = 2 from rfl]
    rw [hitCheck_envC1_A, hitCheck_envC1_B]
    rw [show pC1A.alive = true from rfl, show pC1B.alive = true from rfl]
    simp
    rfl
  · show ((checkCollisionsSpecAux (checkCollisionsEnv envC1 psC1) psC1 psC1 0).map
      Player.alive) = _
    rw [henv2]
    show ((checkCollisionsSpecAux envC1 psC1 [pC1A, pC1B] 0).map Player.alive) = _
    simp only [checkCollisionsSpecAux]
    rw [show (0 + 1 : ℕ) = 1 from rfl, show (0 + 1 + 1 : ℕ) = 2 from rfl]
    rw [hitCheckSpec_envC1_A, hitCheckSpec_envC1_B]
    rw [show pC1A.alive = true from rfl, show pC1B.alive = true from rfl]
    simp
    exact ⟨rfl, rfl⟩

theorem checkCollisions_skip_spec_witness :
    (checkCollisions envC1 psC1)[0]? =
      some (if pC1A.alive && hitCheck envC1 (0 + 1) pC1A then { pC1A with alive := false }
        else pC1A) :=
  (checkCollisions_skip_spec envC1 1 pC1A envC1_wf).2 psC1 (by rw [envC1_eq])
    (by rw [envC1_eq]) 0 pC1A rfl
